import Mathlib

/-!
Shallow embedding of the ClassicLib `ScanGame` scanning pipeline
(`src/ScanGame/ScanGameCore.py` and `src/ScanGame/AsyncScanGame.py`).

Python strings are modelled by Lean `String`; `bytes` values by `List Nat`
(one `Nat` per byte); Python's `in` on strings by a list-infix check on the
underlying character lists; `sorted(set(xs))` by `Finset.sort` on `List.toFinset`.
Filesystem paths are modelled as lists of path segments, rendered with the
Windows separator, matching the `Scripts\` f-strings in the source.
-/

namespace ClassicLib

/-- Infix test on character lists: `infixOf n h` is true iff `n` occurs as a
contiguous sublist of `h` (model of Python's `needle in haystack`). -/
def infixOf (needle : List Char) : List Char → Bool
  | [] => needle.isPrefixOf ([] : List Char)
  | c :: t => needle.isPrefixOf (c :: t) || infixOf needle t

/-- Python's `needle in haystack` on strings. -/
def pyIn (needle hay : String) : Bool := infixOf needle.toList hay.toList

/-- Python's `s.startswith(pre)`. -/
def pyStartsWith (s pre : String) : Bool := pre.toList.isPrefixOf s.toList

/-- Python's `s.endswith(post)`. -/
def pyEndsWith (s post : String) : Bool := post.toList.isSuffixOf s.toList

/-- Python's `str.lower()` (ASCII case folding, as used on the scanner's inputs). -/
def pyLower (s : String) : String := String.mk (s.toList.map Char.toLower)

/-- Python's `str.upper()`. -/
def pyUpper (s : String) : String := String.mk (s.toList.map Char.toUpper)

/-- Python's `"".join(xs)`. -/
def joinStrs (l : List String) : String := l.foldr (· ++ ·) ""

/-- Python's `sorted(set(xs))` for string sets: deduplicate, then sort
lexicographically. -/
def sortedSet (l : List String) : List String := l.toFinset.sort (· ≤ ·)

/-- Fuelled worker for separator splitting (fuel bounds the number of steps;
it is always called with the input's length, which suffices since every step
consumes at least one character). -/
def splitFuel (sep : List Char) : Nat → List Char → List Char → List (List Char)
  | 0, l, acc => [acc.reverse ++ l]
  | fuel + 1, l, acc =>
    match l with
    | [] => [acc.reverse]
    | c :: rest =>
      if sep.isPrefixOf (c :: rest) then
        acc.reverse :: splitFuel sep fuel ((c :: rest).drop sep.length) []
      else splitFuel sep fuel rest (c :: acc)

/-- Python's `s.split(sep)` for a non-empty separator: split on every
non-overlapping leftmost occurrence, keeping empty pieces. -/
def pySplit (sep s : String) : List String :=
  if sep.toList.isEmpty then [s]
  else (splitFuel sep.toList s.toList.length s.toList []).map String.mk

/-- Python's `s.split(sep, maxsplit)` for a non-empty separator. -/
def pySplitOnMax (sep : String) (maxsplit : Nat) (s : String) : List String :=
  let parts := pySplit sep s
  if parts.length ≤ maxsplit + 1 then parts
  else parts.take maxsplit ++ [String.intercalate sep (parts.drop maxsplit)]

/-- Whitespace characters recognised by Python's no-argument `str.split`. -/
def isPySpace (c : Char) : Bool :=
  c == ' ' || c == '\t' || c == '\n' || c == '\r' || c.toNat == 11 || c.toNat == 12

/-- Python's `s.split(maxsplit=b)`: split on runs of whitespace, at most `b`
splits, remainder (stripped of leading whitespace) as the final element. -/
def wsSplitMax : Nat → List Char → List String
  | 0, l =>
    let r := l.dropWhile isPySpace
    if r.isEmpty then [] else [String.mk r]
  | b + 1, l =>
    let r := l.dropWhile isPySpace
    match r with
    | [] => []
    | _ =>
      let tok := r.takeWhile (fun c => !isPySpace c)
      String.mk tok :: wsSplitMax b (r.drop tok.length)

/-- Python's `str.isdecimal()` restricted to ASCII digits. -/
def pyIsDecimal (s : String) : Bool := !s.isEmpty && s.toList.all (fun c => c.isDigit)

/-- Python's `int(s)` for a decimal string (`0` as don't-care fallback;
only applied under an `isdecimal` guard, as in the source). -/
def pyNat (s : String) : Nat := s.toList.foldl (fun acc c => acc * 10 + (c.toNat - 48)) 0

/-- Python's `s[-n:]` (last `n` characters, or the whole string when shorter). -/
def pyLastN (n : Nat) (s : String) : String :=
  String.mk (s.toList.drop (s.toList.length - n))

/-- Python's `s.rsplit(".", 1)[-1]`: the part after the last dot, or the whole
string when it has no dot. -/
def afterLastDot (s : String) : String :=
  let r := s.toList.reverse.takeWhile (fun c => c != '.')
  if r.length == s.toList.length then s else String.mk r.reverse

/-- A single-quote character as a string (used by the bytes `repr` model). -/
def sq : String := String.singleton (Char.ofNat 39)

/-- A double-quote character as a string. -/
def dq : String := String.singleton (Char.ofNat 34)

/-- Lowercase hex digit. -/
def hexDigit (n : Nat) : Char :=
  if n < 10 then Char.ofNat (48 + n) else Char.ofNat (87 + n)

/-- Two-digit lowercase hex rendering of a byte. -/
def hex2 (b : Nat) : String :=
  String.mk [hexDigit (b / 16 % 16), hexDigit (b % 16)]

/-- Escape of one byte inside a Python `bytes` repr delimited by quote
character `qv` (as a code point): backslash and the active quote are
backslash-escaped, tab/newline/carriage-return use their mnemonics, printable
ASCII is literal, everything else is `\xhh`. -/
def escByte (qv : Nat) (b : Nat) : String :=
  if b == 92 then String.mk [Char.ofNat 92, Char.ofNat 92]
  else if b == qv then String.mk [Char.ofNat 92, Char.ofNat qv]
  else if b == 9 then String.mk [Char.ofNat 92, Char.ofNat 116]
  else if b == 10 then String.mk [Char.ofNat 92, Char.ofNat 110]
  else if b == 13 then String.mk [Char.ofNat 92, Char.ofNat 114]
  else if 32 ≤ b && b ≤ 126 then String.singleton (Char.ofNat b)
  else String.mk [Char.ofNat 92, Char.ofNat 120] ++ hex2 b

/-- Python's `str(b)` for a `bytes` value `b` (same as `repr`): single-quote
delimited unless the bytes contain a single quote and no double quote. -/
def bytesRepr (bs : List Nat) : String :=
  let hasSq := bs.contains 39
  let hasDq := bs.contains 34
  let qv : Nat := if hasSq && !hasDq then 34 else 39
  let q : String := String.singleton (Char.ofNat qv)
  String.singleton (Char.ofNat 98) ++ q ++ joinStrs (bs.map (escByte qv)) ++ q

/-- Windows path separator, as produced by `str(Path(...))` on the target
platform and by the `Scripts\` f-strings in the source. -/
def bsStr : String := String.singleton (Char.ofNat 92)

/-- Render a path given as a list of segments (`str(Path(...))`). -/
def pathStr (segs : List String) : String := String.intercalate bsStr segs

/-- `str(path.relative_to(mod_path).parent)` for a directory whose path
relative to the mod root is `rel`: `"."` for the root and its immediate
children, otherwise the rendered parent segments. -/
def relParentStr (rel : List String) : String :=
  if rel.length ≤ 1 then "." else pathStr rel.dropLast

/-! ## Issue registry (`issue_lists` dictionaries of `set[str]`) -/

/-- The issue categories used as keys of the `issue_lists` dictionaries in
`scan_mods_unpacked` and `scan_mods_archived`. -/
inductive IssueCat
  | cleanup
  | ba2_frmt
  | animdata
  | tex_dims
  | tex_frmt
  | snd_frmt
  | xse_file
  | previs
deriving DecidableEq

/-- One task's local contribution of report lines per category
(`local_issues` / additions to `issue_lists`); the lines are later merged by
set union, so they are collected here as lists and deduplicated at render
time. -/
structure Issues where
  cleanup : List String
  ba2_frmt : List String
  animdata : List String
  tex_dims : List String
  tex_frmt : List String
  snd_frmt : List String
  xse_file : List String
  previs : List String
deriving DecidableEq

/-- The empty contribution. -/
def Issues.empty : Issues := ⟨[], [], [], [], [], [], [], []⟩

/-- Lines of one category. -/
def Issues.get (i : Issues) : IssueCat → List String
  | .cleanup => i.cleanup
  | .ba2_frmt => i.ba2_frmt
  | .animdata => i.animdata
  | .tex_dims => i.tex_dims
  | .tex_frmt => i.tex_frmt
  | .snd_frmt => i.snd_frmt
  | .xse_file => i.xse_file
  | .previs => i.previs

/-- Add one line to one category (`issue_lists[cat].add(line)`). -/
def Issues.add (i : Issues) (c : IssueCat) (s : String) : Issues :=
  match c, i with
  | .cleanup, ⟨l1, l2, l3, l4, l5, l6, l7, l8⟩ => ⟨s :: l1, l2, l3, l4, l5, l6, l7, l8⟩
  | .ba2_frmt, ⟨l1, l2, l3, l4, l5, l6, l7, l8⟩ => ⟨l1, s :: l2, l3, l4, l5, l6, l7, l8⟩
  | .animdata, ⟨l1, l2, l3, l4, l5, l6, l7, l8⟩ => ⟨l1, l2, s :: l3, l4, l5, l6, l7, l8⟩
  | .tex_dims, ⟨l1, l2, l3, l4, l5, l6, l7, l8⟩ => ⟨l1, l2, l3, s :: l4, l5, l6, l7, l8⟩
  | .tex_frmt, ⟨l1, l2, l3, l4, l5, l6, l7, l8⟩ => ⟨l1, l2, l3, l4, s :: l5, l6, l7, l8⟩
  | .snd_frmt, ⟨l1, l2, l3, l4, l5, l6, l7, l8⟩ => ⟨l1, l2, l3, l4, l5, s :: l6, l7, l8⟩
  | .xse_file, ⟨l1, l2, l3, l4, l5, l6, l7, l8⟩ => ⟨l1, l2, l3, l4, l5, l6, s :: l7, l8⟩
  | .previs, ⟨l1, l2, l3, l4, l5, l6, l7, l8⟩ => ⟨l1, l2, l3, l4, l5, l6, l7, s :: l8⟩

/-! ## Report templates (`get_issue_messages`) and report assembly -/

/-- The two scan modes of `get_issue_messages`. -/
inductive ScanMode
  | unpacked
  | archived
deriving DecidableEq

/-- Template block shared by `tex_frmt` and `ba2_frmt` (lines 2-4) and
`snd_frmt` (lines 2-4). -/
def wrongFormatTail : List String :=
  ["▶️ Any files with an incorrect file format will not work.\n",
   "  Mod authors should convert these files to their proper game format.\n",
   "  If possible, notify the original mod authors about these problems.\n\n"]

/-- `get_issue_messages` from `ScanGameCore.py`: the per-category message
templates, `none` when the category is not a key of the dictionary for the
given mode. -/
def get_issue_messages (xse : String) (mode : ScanMode) : IssueCat → Option (List String)
  | .tex_dims => some
      ["\n# ⚠️ DDS DIMENSIONS ARE NOT DIVISIBLE BY 2 ⚠️\n",
       "▶️ Any mods that have texture files with incorrect dimensions\n",
       "  are very likely to cause a *Texture (DDS) Crash*. For further details,\n",
       "  read the *How To Read Crash Logs.pdf* included with the CLASSIC exe.\n\n"]
  | .tex_frmt => some
      (["\n# ❓ TEXTURE FILES HAVE INCORRECT FORMAT, SHOULD BE DDS ❓\n"] ++ wrongFormatTail)
  | .snd_frmt => some
      (["\n# ❓ SOUND FILES HAVE INCORRECT FORMAT, SHOULD BE XWM OR WAV ❓\n"] ++ wrongFormatTail)
  | .xse_file =>
    match mode with
    | .unpacked => some
        ["\n# ⚠️ FOLDERS CONTAIN COPIES OF *" ++ xse ++ "* SCRIPT FILES ⚠️\n",
         "▶️ Any mods with copies of original Script Extender files\n",
         "  may cause script related problems or crashes.\n\n"]
    | .archived => some
        ["\n# ⚠️ BA2 ARCHIVES CONTAIN COPIES OF *" ++ xse ++ "* SCRIPT FILES ⚠️\n",
         "▶️ Any mods with copies of original Script Extender files\n",
         "  may cause script related problems or crashes.\n\n"]
  | .previs =>
    match mode with
    | .unpacked => some
        ["\n# ⚠️ FOLDERS CONTAIN LOOSE PRECOMBINE / PREVIS FILES ⚠️\n",
         "▶️ Any mods that contain custom precombine/previs files\n",
         "  should load after the PRP.esp plugin from Previs Repair Pack (PRP).\n",
         "  Otherwise, see if there is a PRP patch available for these mods.\n\n"]
    | .archived => some
        ["\n# ⚠️ BA2 ARCHIVES CONTAIN CUSTOM PRECOMBINE / PREVIS FILES ⚠️\n",
         "▶️ Any mods that contain custom precombine/previs files\n",
         "  should load after the PRP.esp plugin from Previs Repair Pack (PRP).\n",
         "  Otherwise, see if there is a PRP patch available for these mods.\n\n"]
  | .animdata =>
    match mode with
    | .unpacked => some
        ["\n# ❓ FOLDERS CONTAIN CUSTOM ANIMATION FILE DATA ❓\n",
         "▶️ Any mods that have their own custom Animation File Data\n",
         "  may rarely cause an *Animation Corruption Crash*. For further details,\n",
         "  read the *How To Read Crash Logs.pdf* included with the CLASSIC exe.\n\n"]
    | .archived => some
        ["\n# ❓ BA2 ARCHIVES CONTAIN CUSTOM ANIMATION FILE DATA ❓\n",
         "▶️ Any mods that have their own custom Animation File Data\n",
         "  may rarely cause an *Animation Corruption Crash*. For further details,\n",
         "  read the *How To Read Crash Logs.pdf* included with the CLASSIC exe.\n\n"]
  | .cleanup =>
    match mode with
    | .unpacked => some
        ["\n# 📄 DOCUMENTATION FILES MOVED TO " ++ sq ++ "CLASSIC Backup\\Cleaned Files" ++ sq ++ " 📄\n"]
    | .archived => none
  | .ba2_frmt =>
    match mode with
    | .unpacked => none
    | .archived => some
        (["\n# ❓ BA2 ARCHIVES HAVE INCORRECT FORMAT, SHOULD BE BTDX-GNRL OR BTDX-DX10 ❓\n"] ++ wrongFormatTail)

/-- Category iteration order of the `issue_lists` dictionary in
`scan_mods_unpacked` (Python dict insertion order). -/
def unpackedOrder : List IssueCat :=
  [.cleanup, .animdata, .tex_dims, .tex_frmt, .snd_frmt, .xse_file, .previs]

/-- Category iteration order of the `issue_lists` dictionary in
`scan_mods_archived`. -/
def archivedOrder : List IssueCat :=
  [.ba2_frmt, .animdata, .tex_dims, .tex_frmt, .snd_frmt, .xse_file, .previs]

/-- Fixed header lines of the loose-file scan report. -/
def unpackedHeader : List String :=
  ["=================== MOD FILES SCAN ====================\n",
   "========= RESULTS FROM UNPACKED / LOOSE FILES =========\n"]

/-- Fixed header line of the archived scan report. -/
def archivedHeader : List String :=
  ["\n========== RESULTS FROM ARCHIVED / BA2 FILES ==========\n"]

/-- `if items and issue_type in issue_messages: extend(templates); extend(sorted(items))`:
the rendered lines of one category. -/
def renderCategory (msgs : Option (List String)) (items : List String) : List String :=
  match msgs with
  | none => []
  | some ts => if items.isEmpty then [] else ts ++ sortedSet items

/-- Assemble a scan report: header lines, then each category's block in the
fixed order, joined into one string (`"".join(message_list)`). -/
def buildReport (header : List String) (order : List IssueCat)
    (msgs : IssueCat → Option (List String)) (reg : IssueCat → List String) : String :=
  joinStrs (header ++ (order.map (fun c => renderCategory (msgs c) (reg c))).flatten)

/-- The lines a per-task result contributes to one category: a task whose
coroutine raised is `none` and contributes nothing (it is skipped by the
`isinstance(result, dict)` guard of the merge loop). -/
def contribGet (r : Option Issues) (c : IssueCat) : List String :=
  match r with
  | none => []
  | some i => i.get c

/-- The number of lines a per-task result contributes to one category. -/
def contribLen (r : Option Issues) (c : IssueCat) : Nat := (contribGet r c).length

/-- Merge per-task results into the global registry: categories collect the
union of all successful tasks' contributions. -/
def mergeResults (rs : List (Option Issues)) : IssueCat → List String :=
  fun c => (rs.map (fun r => contribGet r c)).flatten

/-! ## Log error scan (`check_log_errors`) -/

/-- The `ERROR > ` marker prefixed to every matched log line. -/
def errMark : String := "ERROR > "

/-- The `crash-` fragment excluding crash logs from the log scan. -/
def crashMark : String := "crash-"

/-- One log file visible to `check_log_errors`: its rendered full path
(`str(file)`), its base name (`file.name`), and its lines (with line
terminators, as returned by `readlines`), or `none` when reading raises
`OSError`. -/
structure LogFile where
  pathStr : String
  name : String
  lines : Option (List String)
deriving DecidableEq

/-- Modelled from the spec: `normalize_list` lives in `ClassicLib/Util.py`,
which is not under `src/`. The spec states that every log line "is tested
case-insensitively" against the catch/ignore patterns while the code compares
the patterns against `line.lower()`, so the normalization is modelled as
lowercasing each configured pattern. -/
def normalize_list (l : List String) : List String := l.map pyLower

/-- The per-line filter of `process_single_log`: the line is kept when it
contains at least one catch pattern and none of the ignore patterns
(patterns are matched against the lowercased line). -/
def logLineHit (catchErrors ignoreErrors : List String) (line : String) : Bool :=
  (catchErrors.any fun e => pyIn e (pyLower line))
    && (ignoreErrors.all fun i => !pyIn i (pyLower line))

/-- `detected_errors` of `process_single_log`: matching lines, each prefixed
with the error marker. -/
def detectedErrors (catchErrors ignoreErrors : List String) (lines : List String) : List String :=
  (lines.filter (logLineHit catchErrors ignoreErrors)).map (fun l => errMark ++ l)

/-- `format_error_report`: the block emitted for one log file that has at
least one detected error. -/
def format_error_report (pathStr : String) (errors : List String) : List String :=
  ["[!] CAUTION : THE FOLLOWING LOG FILE REPORTS ONE OR MORE ERRORS!\n",
   "[ Errors do not necessarily mean that the mod is not working. ]\n",
   "\nLOG PATH > " ++ pathStr ++ "\n"]
  ++ errors
  ++ ["\n* TOTAL NUMBER OF DETECTED LOG ERRORS * : " ++ toString errors.length ++ "\n"]

/-- `process_single_log`: the report fragment contributed by one log file. -/
def process_single_log (catchErrors ignoreErrors : List String) (f : LogFile) : List String :=
  match f.lines with
  | none => ["❌ ERROR : Unable to scan this log file :\n  " ++ f.pathStr]
  | some ls =>
    let det := detectedErrors catchErrors ignoreErrors ls
    if det.isEmpty then [] else format_error_report f.pathStr det

/-- The `valid_log_files` filter: drop files whose name contains `crash-`
(case-insensitively) and files whose path contains a configured exclusion
fragment. -/
def validLogFiles (ignoreFiles : List String) (files : List LogFile) : List LogFile :=
  files.filter fun f =>
    !pyIn crashMark (pyLower f.name) && !(ignoreFiles.any fun part => pyIn part (pyLower f.pathStr))

/-- `check_log_errors`: filter the folder's `*.log` files, process each one,
and concatenate the per-file fragments in file order (the `asyncio.gather`
call returns results in task order). The pattern lists are the raw YAML
settings, normalized as in the source. -/
def check_log_errors (catchRaw ignoreRaw ignoreFilesRaw : List String)
    (globFiles : List LogFile) : String :=
  let catchErrors := normalize_list catchRaw
  let ignoreErrors := normalize_list ignoreRaw
  let ignoreFiles := normalize_list ignoreFilesRaw
  joinStrs ((validLogFiles ignoreFiles globFiles).map
    (process_single_log catchErrors ignoreErrors)).flatten

/-! ## DDS texture header check (`check_single_dds`) -/

/-- The expected 4-byte magic `b"DDS "` of a DDS texture container. -/
def ddsMagic : List Nat := [68, 68, 83, 32]

/-- Little-endian uint32 decode of a 4-byte slice (`struct.unpack("<I", ...)`). -/
def leU32 : List Nat → Nat
  | [b0, b1, b2, b3] => b0 + 256 * b1 + 65536 * b2 + 16777216 * b3
  | _ => 0

/-- The `tex_dims` report line of the loose-file scan (note: no trailing
newline, as in the source). -/
def ddsDimsLine (relPathStr : String) (width height : Nat) : String :=
  "  - " ++ relPathStr ++ " (" ++ toString width ++ "x" ++ toString height ++ ")"

/-- `check_single_dds` applied to the result of `read(20)` on the file: when
the magic does not match, the file is silently skipped; when the read returned
fewer than 20 bytes, `struct.unpack` raises (the exception is captured by the
gather call) and the file contributes nothing; otherwise a `tex_dims` line is
produced exactly when the decoded width or height is odd. -/
def check_single_dds (relPathStr : String) (ddsData : List Nat) : Option String :=
  if ddsData.take 4 = ddsMagic then
    if 20 ≤ ddsData.length then
      let width := leU32 ((ddsData.drop 12).take 4)
      let height := leU32 ((ddsData.drop 16).take 4)
      if width % 2 ≠ 0 ∨ height % 2 ≠ 0 then some (ddsDimsLine relPathStr width height)
      else none
    else none
  else none

/-! ## BA2 archive inspector (`process_single_ba2`) -/

/-- `b"BTDX"`. -/
def bBTDX : List Nat := [66, 84, 68, 88]

/-- `b"GNRL"`. -/
def bGNRL : List Nat := [71, 78, 82, 76]

/-- `b"DX10"`. -/
def bDX10 : List Nat := [68, 88, 49, 48]

/-- `header[:4] != b"BTDX" or header[8:] not in {b"DX10", b"GNRL"}`. -/
def ba2HeaderBad (h : List Nat) : Bool :=
  !(h.take 4 = bBTDX : Bool) || (!(h.drop 8 = bDX10 : Bool) && !(h.drop 8 = bGNRL : Bool))

/-- The BSArch subcommand chosen for a recognised archive. -/
inductive BsarchCmd
  | listCmd
  | dumpCmd
deriving DecidableEq

/-- The command-line argument passed to the external tool. -/
def bsarchArg : BsarchCmd → String
  | .listCmd => "-list"
  | .dumpCmd => "-dump"

/-- Which subcommand (if any) the inspector runs for a given 12-byte header:
`none` means the header is unrecognised and no subprocess is created. -/
def ba2Subcommand (h : List Nat) : Option BsarchCmd :=
  if ba2HeaderBad h then none
  else if h.drop 8 = bDX10 then some .dumpCmd
  else some .listCmd

/-- The `ba2_frmt` issue line for an unrecognised header:
`f"  - {filename} : {header!s}\n"`. -/
def ba2FrmtLine (filename : String) (h : List Nat) : String :=
  "  - " ++ filename ++ " : " ++ bytesRepr h ++ "\n"

/-- Captured behaviour of one external BSArch invocation. -/
structure ToolResult where
  timedOut : Bool
  exitCode : Int
  stdout : String
deriving DecidableEq

/-- One archive as seen by `process_single_ba2`: its base name, the rendered
parent-directory path (`str(file_path.parent)`), the first 12 bytes of the
file (`none` when the read raises `OSError`), and the external tool's
behaviour on it. -/
structure Ba2File where
  filename : String
  parentStr : String
  header : Option (List Nat)
  tool : ToolResult
deriving DecidableEq

/-- `"Ext: dds"` — the texture-extension marker searched for in dump output. -/
def extDdsMark : String := "Ext: dds"

/-- `"Error:"`. -/
def errorColon : String := "Error:"

/-- `"\n\n"`. -/
def nl2Str : String := "\n\n"

/-- `"\n"`. -/
def nlStr : String := "\n"

/-- The dump-mode `tex_frmt` line:
`f"  - {block_split[0].rsplit('.', 1)[-1].upper()} : {filename} > {block_split[0]}\n"`. -/
def dumpTexFrmtLine (filename blockName : String) : String :=
  "  - " ++ pyUpper (afterLastDot blockName) ++ " : " ++ filename ++ " > " ++ blockName ++ "\n"

/-- The dump-mode `tex_dims` line (no trailing newline, as in the source). -/
def dumpTexDimsLine (filename blockName width height : String) : String :=
  "  - " ++ width ++ "x" ++ height ++ " : " ++ filename ++ " > " ++ blockName

/-- The loop over `output_split[4:]` in dump mode. `none` models an
`IndexError` (a block with fewer lines than the fixed positions consulted),
which is not in the caught exception tuple and so discards the archive's
whole contribution; a malformed dimension line raises `ValueError`, which is
caught and stops the loop while keeping the lines accumulated so far. -/
def dumpLoop (filename : String) : List String → Option Issues
  | [] => some Issues.empty
  | b :: rest =>
    if b.isEmpty then dumpLoop filename rest
    else
      let bs := pySplitOnMax nlStr 3 b
      match bs.get? 1 with
      | none => none
      | some line1 =>
        if !pyIn extDdsMark line1 then
          match dumpLoop filename rest with
          | none => none
          | some acc => some (acc.add .tex_frmt (dumpTexFrmtLine filename (bs.headD "")))
        else
          match bs.get? 2 with
          | none => none
          | some line2 =>
            match wsSplitMax 4 line2.toList with
            | [_, w, _, h, _] =>
              match dumpLoop filename rest with
              | none => none
              | some acc =>
                if (pyIsDecimal w && pyNat w % 2 != 0) || (pyIsDecimal h && pyNat h % 2 != 0) then
                  some (acc.add .tex_dims (dumpTexDimsLine filename (bs.headD "") w h))
                else some acc
            | _ => some Issues.empty

/-- Dump-mode processing of the captured stdout: split into blank-line
separated blocks, bail out when the final block is a tool-reported error,
otherwise scan the blocks after the 4-block preamble. -/
def processDump (filename stdout : String) : Option Issues :=
  let outputSplit := pySplit nl2Str stdout
  if pyStartsWith (outputSplit.getLastD "") errorColon then some Issues.empty
  else dumpLoop filename (outputSplit.drop 4)

/-- `".mp3"`. -/
def mp3Ext : String := ".mp3"

/-- `".m4a"`. -/
def m4aExt : String := ".m4a"

/-- `".uvd"`. -/
def uvdExt : String := ".uvd"

/-- `"_oc.nif"`. -/
def ocNifExt : String := "_oc.nif"

/-- `"animationfiledata"`. -/
def animFileData : String := "animationfiledata"

/-- `"workshop framework"`. -/
def workshopFw : String := "workshop framework"

/-- `"scripts\"` (the lowercase fragment used in archive list mode). -/
def scriptsLowBS : String := "scripts" ++ bsStr

/-- `"Scripts\"` (the exact-case fragment used in the loose-file scan). -/
def scriptsCapBS : String := "Scripts" ++ bsStr

/-- The list-mode `snd_frmt` line: `f"  - {file[-3:].upper()} : {filename} > {file}\n"`. -/
def listSndLine (filename entry : String) : String :=
  "  - " ++ pyUpper (pyLastN 3 entry) ++ " : " ++ filename ++ " > " ++ entry ++ "\n"

/-- The archive-name line used by `animdata`, `xse_file` and `previs` in list
mode: `f"  - {filename}\n"`. -/
def archNameLine (filename : String) : String := "  - " ++ filename ++ "\n"

/-- The loop over `output_split[15:]` in list mode, carrying the three
first-match-only flags (`has_previs_files`, `has_anim_data`, `has_xse_files`). -/
def listLoop (keys : List String) (filename parentStr : String) :
    List String → Bool → Bool → Bool → Issues
  | [], _, _, _ => Issues.empty
  | entry :: rest, hasPrevis, hasAnim, hasXse =>
    if pyEndsWith entry mp3Ext || pyEndsWith entry m4aExt then
      (listLoop keys filename parentStr rest hasPrevis hasAnim hasXse).add .snd_frmt
        (listSndLine filename entry)
    else if !hasAnim && pyIn animFileData entry then
      (listLoop keys filename parentStr rest hasPrevis true hasXse).add .animdata
        (archNameLine filename)
    else if !hasXse && (keys.any fun k => pyIn (scriptsLowBS ++ pyLower k) entry)
        && !pyIn workshopFw (pyLower parentStr) then
      (listLoop keys filename parentStr rest hasPrevis hasAnim true).add .xse_file
        (archNameLine filename)
    else if !hasPrevis && (pyEndsWith entry uvdExt || pyEndsWith entry ocNifExt) then
      (listLoop keys filename parentStr rest true hasAnim hasXse).add .previs
        (archNameLine filename)
    else listLoop keys filename parentStr rest hasPrevis hasAnim hasXse

/-- List-mode processing of the captured stdout: lowercase the whole output,
split into lines, and classify every line after the 15-line preamble. -/
def processList (keys : List String) (filename parentStr stdout : String) : Issues :=
  listLoop keys filename parentStr ((pySplit nlStr (pyLower stdout)).drop 15) false false false

/-- `process_single_ba2`: the per-archive contribution. `none` models a task
whose coroutine raised an exception outside the caught tuple (only possible
through `dumpLoop`); `some Issues.empty` covers the per-item recoverable
failures (unreadable file, timeout, nonzero exit, tool-reported error). -/
def process_single_ba2 (keys : List String) (f : Ba2File) : Option Issues :=
  match f.header with
  | none => some Issues.empty
  | some h =>
    if ba2HeaderBad h then some (Issues.empty.add .ba2_frmt (ba2FrmtLine f.filename h))
    else if h.drop 8 = bDX10 then
      if f.tool.timedOut then some Issues.empty
      else if f.tool.exitCode != 0 then some Issues.empty
      else processDump f.filename f.tool.stdout
    else
      if f.tool.timedOut then some Issues.empty
      else if f.tool.exitCode != 0 then some Issues.empty
      else some (processList keys f.filename f.parentStr f.tool.stdout)

/-! ## Archived scan (`ScanGameCore.scan_mods_archived`) -/

/-- Settings shared by the scan functions, as returned by `get_scan_settings`
plus the three YAML warning strings used for missing prerequisites. -/
structure ScanSettings where
  xseAcronym : String
  xseKeys : List String
  modPath : Option (List String)
  msgPathMissing : String
  msgPathInvalid : String
  msgBsarchMissing : String
deriving DecidableEq

/-- The fixed result string when the BA2 walk raises `OSError`. -/
def errCouldNotScanBa2 : String := "Error: Could not scan for BA2 files"

/-- `".ba2"`. -/
def ba2Ext : String := ".ba2"

/-- `"prp - main.ba2"`. -/
def prpMain : String := "prp - main.ba2"

/-- The BA2 collection filter applied during traversal: keep files whose
lowercased name ends in `.ba2` and is not `prp - main.ba2`. -/
def collectBa2 (files : List Ba2File) : List Ba2File :=
  files.filter fun f =>
    pyEndsWith (pyLower f.filename) ba2Ext && !(pyLower f.filename = prpMain : Bool)

/-- `ScanGameCore.scan_mods_archived` as a function of its inputs: the
settings, the two existence checks, and the traversal outcome (`Except.error`
models an `OSError` raised by the collection walk). -/
def scan_mods_archived (s : ScanSettings) (modPathExists bsarchExists : Bool)
    (walk : Except Unit (List Ba2File)) : String :=
  match s.modPath with
  | none => s.msgPathMissing
  | some _ =>
    if !modPathExists then s.msgPathInvalid
    else if !bsarchExists then s.msgBsarchMissing
    else
      match walk with
      | .error _ => errCouldNotScanBa2
      | .ok files =>
        buildReport archivedHeader archivedOrder (get_issue_messages s.xseAcronym .archived)
          (mergeResults ((collectBa2 files).map (process_single_ba2 s.xseKeys)))

/-! ## Loose-file scan (`scan_mods_unpacked`) -/

/-- Python's `PurePath.suffix` for a file name: the extension including the
dot, empty when the name has no dot, starts with its only dot, or ends in a
dot. -/
def pathSuffix (name : String) : String :=
  let cs := name.toList
  let r := cs.reverse.takeWhile (fun c => c != '.')
  if r.length = cs.length then ""
  else if 0 < r.length ∧ r.length + 1 < cs.length then String.mk ('.' :: r.reverse)
  else ""

/-- One directory entry of the bottom-up walk of the mod root: its path
relative to the root (as segments), its immediate subdirectory names and its
immediate file names. -/
structure LooseDir where
  rel : List String
  dirs : List String
  files : List String
deriving DecidableEq

/-- A directory task's outcome: its issue contributions and the filesystem
moves it performed (source and destination path strings). -/
structure DirOutcome where
  issues : Issues
  moves : List (String × String)
deriving DecidableEq

/-- Pointwise concatenation of two contributions. -/
def Issues.append : Issues → Issues → Issues
  | ⟨a1, a2, a3, a4, a5, a6, a7, a8⟩, ⟨b1, b2, b3, b4, b5, b6, b7, b8⟩ =>
    ⟨a1 ++ b1, a2 ++ b2, a3 ++ b3, a4 ++ b4, a5 ++ b5, a6 ++ b6, a7 ++ b7, a8 ++ b8⟩

/-- `"fomod"`. -/
def fomodStr : String := "fomod"

/-- `".txt"`. -/
def txtExt : String := ".txt"

/-- `".dds"`. -/
def ddsExt : String := ".dds"

/-- `".tga"`. -/
def tgaExt : String := ".tga"

/-- `".png"`. -/
def pngExt : String := ".png"

/-- `"BodySlide"`. -/
def bodySlideStr : String := "BodySlide"

/-- `filter_names`: the documentation-indicator fragments. -/
def filterNames : List String := ["readme", "changes", "changelog", "change log"]

/-- The cleanup/documentation classification: lowercase name ends in `.txt`
and contains one of the documentation fragments. -/
def isDocFile (filenameLower : String) : Bool :=
  pyEndsWith filenameLower txtExt && filterNames.any (fun n => pyIn n filenameLower)

/-- `str(backup_path / relative_path)`. -/
def moveDstStr (backupStr relPathStr : String) : String := backupStr ++ bsStr ++ relPathStr

/-- `f"  - {relative_path}\n"` (cleanup lines). -/
def cleanupLine (relPathStr : String) : String := "  - " ++ relPathStr ++ "\n"

/-- `f"  - {root_main}\n"` (per-directory lines of `animdata`, `xse_file`,
`previs` in the loose scan). -/
def dirLine (rel : List String) : String := "  - " ++ relParentStr rel ++ "\n"

/-- `f"  - {file_ext[1:].upper()} : {relative_path}\n"` (`tex_frmt` and
`snd_frmt` lines of the loose scan). -/
def extLine (ext relPathStr : String) : String :=
  "  - " ++ pyUpper (String.mk (ext.toList.drop 1)) ++ " : " ++ relPathStr ++ "\n"

/-- The loop over a directory's subdirectory names, carrying the
`has_anim_data` flag. A `fomod` directory is moved (skipped entirely in test
mode) and its relocated line recorded; a failed move records nothing. -/
def dirsLoop (modPath : List String) (backupStr : String) (testMode : Bool)
    (moveOk : String → Bool) (rel : List String) :
    List String → Bool → Issues × List (String × String)
  | [], _ => (Issues.empty, [])
  | dn :: rest, hasAnim =>
    if !hasAnim && pyLower dn = animFileData then
      let (i, m) := dirsLoop modPath backupStr testMode moveOk rel rest true
      (i.add .animdata (dirLine rel), m)
    else if pyLower dn = fomodStr then
      let src := pathStr (modPath ++ rel ++ [dn])
      let relp := pathStr (rel ++ [dn])
      let (i, m) := dirsLoop modPath backupStr testMode moveOk rel rest hasAnim
      if testMode then (i.add .cleanup (cleanupLine relp), m)
      else if moveOk src then
        (i.add .cleanup (cleanupLine relp), (src, moveDstStr backupStr relp) :: m)
      else (i, m)
    else dirsLoop modPath backupStr testMode moveOk rel rest hasAnim

/-- The `.dds` branch guard: `file_ext == ".dds"`. -/
def isDdsBranch (fn : String) : Bool := pyLower (pathSuffix fn) == ddsExt

/-- The texture-format branch guard:
`file_ext in {".tga", ".png"} and "BodySlide" not in file_path.parts`. -/
def isTexFrmtBranch (modPath rel : List String) (fn : String) : Bool :=
  (pyLower (pathSuffix fn) == tgaExt || pyLower (pathSuffix fn) == pngExt)
    && !(modPath ++ rel ++ [fn]).contains bodySlideStr

/-- The sound-format branch guard: `file_ext in {".mp3", ".m4a"}`. -/
def isSndBranch (fn : String) : Bool :=
  pyLower (pathSuffix fn) == mp3Ext || pyLower (pathSuffix fn) == m4aExt

/-- The script-extender condition of the loose scan (without the
`has_xse_files` flag): the lowercased name equals a configured script file
name, `workshop framework` does not occur in the lowercased directory path,
and the exact-case string `Scripts\` followed by the file name occurs in the
full path string. -/
def xseHit (keys : List String) (modPath rel : List String) (fn : String) : Bool :=
  (keys.any fun k => pyLower fn == pyLower k)
    && !pyIn workshopFw (pyLower (pathStr (modPath ++ rel)))
    && pyIn (scriptsCapBS ++ fn) (pathStr (modPath ++ rel ++ [fn]))

/-- The previs condition of the loose scan (without the flag):
`filename_lower.endswith((".uvd", "_oc.nif"))`. -/
def previsHit (fn : String) : Bool :=
  pyEndsWith (pyLower fn) uvdExt || pyEndsWith (pyLower fn) ocNifExt

/-- A file takes one of the branches of the `elif` chain that precede the
script-extender check. -/
def looseEarlier (modPath rel : List String) (fn : String) : Bool :=
  isDocFile (pyLower fn) || isDdsBranch fn || isTexFrmtBranch modPath rel fn || isSndBranch fn

/-- The per-file `elif` chain of `process_directory`, carrying the
`has_xse_files` and `has_previs_files` flags; returns the issue
contributions, the performed moves, and the queued `(path, relative path)`
pairs of `.dds` files. -/
def filesLoop (keys : List String) (modPath : List String) (backupStr : String)
    (testMode : Bool) (moveOk : String → Bool) (rel : List String) :
    List String → Bool → Bool → Issues × List (String × String) × List (String × String)
  | [], _, _ => (Issues.empty, [], [])
  | fn :: rest, hasXse, hasPrevis =>
    let fpathStr := pathStr (modPath ++ rel ++ [fn])
    let relStr := pathStr (rel ++ [fn])
    let ext := pyLower (pathSuffix fn)
    if isDocFile (pyLower fn) then
      let (i, m, d) := filesLoop keys modPath backupStr testMode moveOk rel rest hasXse hasPrevis
      if testMode then (i.add .cleanup (cleanupLine relStr), m, d)
      else if moveOk fpathStr then
        (i.add .cleanup (cleanupLine relStr), (fpathStr, moveDstStr backupStr relStr) :: m, d)
      else (i, m, d)
    else if isDdsBranch fn then
      let (i, m, d) := filesLoop keys modPath backupStr testMode moveOk rel rest hasXse hasPrevis
      (i, m, (fpathStr, relStr) :: d)
    else if isTexFrmtBranch modPath rel fn then
      let (i, m, d) := filesLoop keys modPath backupStr testMode moveOk rel rest hasXse hasPrevis
      (i.add .tex_frmt (extLine ext relStr), m, d)
    else if isSndBranch fn then
      let (i, m, d) := filesLoop keys modPath backupStr testMode moveOk rel rest hasXse hasPrevis
      (i.add .snd_frmt (extLine ext relStr), m, d)
    else if !hasXse && xseHit keys modPath rel fn then
      let (i, m, d) := filesLoop keys modPath backupStr testMode moveOk rel rest true hasPrevis
      (i.add .xse_file (dirLine rel), m, d)
    else if !hasPrevis && previsHit fn then
      let (i, m, d) := filesLoop keys modPath backupStr testMode moveOk rel rest hasXse true
      (i.add .previs (dirLine rel), m, d)
    else filesLoop keys modPath backupStr testMode moveOk rel rest hasXse hasPrevis

/-- The `tex_dims` contribution of one queued `.dds` file, given the file
contents by path (`none` models an `OSError` read failure, logged as a
warning). -/
def ddsContrib (ddsContent : String → Option (List Nat)) (pair : String × String) :
    Option String :=
  match ddsContent pair.1 with
  | none => none
  | some bytes => check_single_dds pair.2 (bytes.take 20)

/-- `process_directory`: one directory task of the loose-file scan. -/
def process_directory (keys : List String) (modPath : List String) (backupStr : String)
    (testMode : Bool) (moveOk : String → Bool) (ddsContent : String → Option (List Nat))
    (d : LooseDir) : DirOutcome :=
  let dirPart := dirsLoop modPath backupStr testMode moveOk d.rel d.dirs false
  let filePart := filesLoop keys modPath backupStr testMode moveOk d.rel d.files false false
  let texDims := (filePart.2.2.map (ddsContrib ddsContent)).filterMap id
  ⟨(dirPart.1.append filePart.1).append ⟨[], [], [], texDims, [], [], [], []⟩,
   dirPart.2 ++ filePart.2.1⟩

/-- The global registry of the loose scan: per category, all directories'
contributions. -/
def looseRegistry (outs : List DirOutcome) : IssueCat → List String :=
  fun c => (outs.map (fun o => o.issues.get c)).flatten

/-- The fixed result string when the loose-file walk raises. -/
def errCouldNotAccess : String := "Error: Could not access mod files"

/-- `scan_mods_unpacked` as a function of its inputs; returns the report text
and the list of filesystem moves performed. -/
def scan_mods_unpacked (s : ScanSettings) (backupStr : String) (testMode : Bool)
    (moveOk : String → Bool) (ddsContent : String → Option (List Nat))
    (walk : Except Unit (List LooseDir)) : String × List (String × String) :=
  match s.modPath with
  | none => (s.msgPathMissing, [])
  | some mp =>
    match walk with
    | .error _ => (errCouldNotAccess, [])
    | .ok dirsData =>
      let outs := dirsData.map (process_directory s.xseKeys mp backupStr testMode moveOk ddsContent)
      (buildReport unpackedHeader unpackedOrder (get_issue_messages s.xseAcronym .unpacked)
        (looseRegistry outs),
       (outs.map (fun o => o.moves)).flatten)

end ClassicLib

namespace AsyncScanGame

/-!
Embedding of the free-function variant `scan_mods_archived_async` from
`src/ScanGame/AsyncScanGame.py`, translated independently of the class-based
variant above. It shares only the Python-primitive helpers and the literal
string constants with the `ClassicLib` namespace, both being renderings of the
same f-strings in the two source files.
-/

open ClassicLib

/-- The dump-mode block loop of `AsyncScanGame.process_single_ba2`
(lines 141-157 of `AsyncScanGame.py`). -/
def dumpLoop (filename : String) : List String → Option Issues
  | [] => some Issues.empty
  | b :: rest =>
    if b.isEmpty then dumpLoop filename rest
    else
      let bs := pySplitOnMax nlStr 3 b
      match bs.get? 1 with
      | none => none
      | some line1 =>
        if !pyIn extDdsMark line1 then
          match dumpLoop filename rest with
          | none => none
          | some acc => some (acc.add .tex_frmt (dumpTexFrmtLine filename (bs.headD "")))
        else
          match bs.get? 2 with
          | none => none
          | some line2 =>
            match wsSplitMax 4 line2.toList with
            | [_, w, _, h, _] =>
              match dumpLoop filename rest with
              | none => none
              | some acc =>
                if (pyIsDecimal w && pyNat w % 2 != 0) || (pyIsDecimal h && pyNat h % 2 != 0) then
                  some (acc.add .tex_dims (dumpTexDimsLine filename (bs.headD "") w h))
                else some acc
            | _ => some Issues.empty

/-- Dump-mode stdout processing of the async variant. -/
def processDump (filename stdout : String) : Option Issues :=
  let outputSplit := pySplit nl2Str stdout
  if pyStartsWith (outputSplit.getLastD "") errorColon then some Issues.empty
  else dumpLoop filename (outputSplit.drop 4)

/-- The list-mode entry loop of the async variant (lines 181-203). -/
def listLoop (keys : List String) (filename parentStr : String) :
    List String → Bool → Bool → Bool → Issues
  | [], _, _, _ => Issues.empty
  | entry :: rest, hasPrevis, hasAnim, hasXse =>
    if pyEndsWith entry mp3Ext || pyEndsWith entry m4aExt then
      (listLoop keys filename parentStr rest hasPrevis hasAnim hasXse).add .snd_frmt
        (listSndLine filename entry)
    else if !hasAnim && pyIn animFileData entry then
      (listLoop keys filename parentStr rest hasPrevis true hasXse).add .animdata
        (archNameLine filename)
    else if !hasXse && (keys.any fun k => pyIn (scriptsLowBS ++ pyLower k) entry)
        && !pyIn workshopFw (pyLower parentStr) then
      (listLoop keys filename parentStr rest hasPrevis hasAnim true).add .xse_file
        (archNameLine filename)
    else if !hasPrevis && (pyEndsWith entry uvdExt || pyEndsWith entry ocNifExt) then
      (listLoop keys filename parentStr rest true hasAnim hasXse).add .previs
        (archNameLine filename)
    else listLoop keys filename parentStr rest hasPrevis hasAnim hasXse

/-- List-mode stdout processing of the async variant. -/
def processList (keys : List String) (filename parentStr stdout : String) : Issues :=
  listLoop keys filename parentStr ((pySplit nlStr (pyLower stdout)).drop 15) false false false

/-- `AsyncScanGame.process_single_ba2`. -/
def process_single_ba2 (keys : List String) (f : Ba2File) : Option Issues :=
  match f.header with
  | none => some Issues.empty
  | some h =>
    if ba2HeaderBad h then some (Issues.empty.add .ba2_frmt (ba2FrmtLine f.filename h))
    else if h.drop 8 = bDX10 then
      if f.tool.timedOut then some Issues.empty
      else if f.tool.exitCode != 0 then some Issues.empty
      else processDump f.filename f.tool.stdout
    else
      if f.tool.timedOut then some Issues.empty
      else if f.tool.exitCode != 0 then some Issues.empty
      else some (processList keys f.filename f.parentStr f.tool.stdout)

/-- Modelled from the spec: `scan_mods_archived_async` imports
`get_issue_messages` from the module `CLASSIC_ScanGame`, which is not under
`src/`; the spec (section 4.6 and the design note on the duplicated variants)
treats the class-based and free-function scans as sharing the same report
templates, so that function is modelled as identical to
`ScanGameCore.get_issue_messages`. -/
def CLASSIC_get_issue_messages (xse : String) (mode : ScanMode) :
    IssueCat → Option (List String) :=
  get_issue_messages xse mode

/-- The BA2 collection filter of the async variant (lines 81-85). -/
def collectBa2 (files : List Ba2File) : List Ba2File :=
  files.filter fun f =>
    pyEndsWith (pyLower f.filename) ba2Ext && !(pyLower f.filename = prpMain : Bool)

/-- `scan_mods_archived_async` as a function of the same inputs as the
class-based variant (its settings come from `CLASSIC_ScanGame.get_scan_settings`,
modelled by the same `ScanSettings` record per the spec's settings-provider
interface). -/
def scan_mods_archived_async (s : ScanSettings) (modPathExists bsarchExists : Bool)
    (walk : Except Unit (List Ba2File)) : String :=
  match s.modPath with
  | none => s.msgPathMissing
  | some _ =>
    if !modPathExists then s.msgPathInvalid
    else if !bsarchExists then s.msgBsarchMissing
    else
      match walk with
      | .error _ => errCouldNotScanBa2
      | .ok files =>
        buildReport archivedHeader archivedOrder (CLASSIC_get_issue_messages s.xseAcronym .archived)
          (mergeResults ((collectBa2 files).map (process_single_ba2 s.xseKeys)))

end AsyncScanGame

namespace ClassicLib

/-! ## Concrete test vectors used by witnesses and counterexamples -/

/-- A dump-mode tool output whose single post-preamble block carries the
exact-case `Ext: dds` marker and even dimensions. -/
def c3stdout1 : String := "p\n\np\n\np\n\np\n\nfile.bmp\nExt: dds\nx 100 y 200 z"

/-- The same dump-mode output with the marker's case changed. -/
def c3stdout2 : String := "p\n\np\n\np\n\np\n\nfile.bmp\nEXT: DDS\nx 100 y 200 z"

/-- A 15-line list-mode preamble. -/
def c3ListPre : String := joinStrs (List.replicate 15 ("x" ++ nlStr))

/-- A list-mode output with an upper-case sound-file entry. -/
def c3list1 : String := c3ListPre ++ "A.MP3"

/-- The same list-mode output lower-cased. -/
def c3list2 : String := c3ListPre ++ "a.mp3"

/-- A log file whose two lines are identical and match a catch pattern. -/
def c1LogFile : LogFile :=
  ⟨"logs" ++ bsStr ++ "net.log", "net.log", some ["boom" ++ nlStr, "boom" ++ nlStr]⟩

/-- The catch-pattern list for the `C1` counterexample. -/
def c1Catch : List String := ["boom"]

/-- A one-archive result list and its transposition, for the permutation
witness. -/
def c1rs1 : List (Option Issues) :=
  [some (Issues.empty.add .previs (archNameLine ("a.ba2"))), none]

/-- The transposed result list. -/
def c1rs2 : List (Option Issues) :=
  [none, some (Issues.empty.add .previs (archNameLine ("a.ba2")))]

/-- A two-directory outcome list and its transposition. -/
def c1outs1 : List DirOutcome :=
  [⟨Issues.empty.add .previs (dirLine ["m", "d"]), []⟩, ⟨Issues.empty, []⟩]

/-- The transposed outcome list. -/
def c1outs2 : List DirOutcome :=
  [⟨Issues.empty, []⟩, ⟨Issues.empty.add .previs (dirLine ["m", "d"]), []⟩]

/-- Settings with a configured mod path, for the traversal-failure claims. -/
def c9Settings : ScanSettings :=
  ⟨"F4SE", [], some ["m"], "missing", "invalid", "nobsarch"⟩

/-- The configured script-extender file names for the `C4` counterexample. -/
def c4Keys : List String := ["f4se.pex"]

/-- The mod root segments for the `C4` counterexample. -/
def c4ModPath : List String := ["root"]

/-- A directory named `MyScripts` holding a configured script-extender file:
no path segment equals `Scripts`, yet `Scripts\f4se.pex` occurs in the
rendered path. -/
def c4Dir : LooseDir := ⟨["ModA", "MyScripts"], [], ["f4se.pex"]⟩

/-- A 20-byte DDS header with width 101 and height 200. -/
def c6odd : List Nat := [68, 68, 83, 32, 0, 0, 0, 0, 0, 0, 0, 0, 101, 0, 0, 0, 200, 0, 0, 0]

/-- A 20-byte DDS header with width 100 and height 200. -/
def c6even : List Nat := [68, 68, 83, 32, 0, 0, 0, 0, 0, 0, 0, 0, 100, 0, 0, 0, 200, 0, 0, 0]

/-- The lines of the `C7` witness log file. -/
def c7Lines : List String := ["Fatal ERROR here" ++ nlStr, "fine" ++ nlStr]

/-- The `C7` witness log file. -/
def c7File : LogFile := ⟨"l" ++ bsStr ++ "a.log", "a.log", some c7Lines⟩

/-- The raw (mixed-case) catch patterns of the `C7` witness. -/
def c7Catch : List String := ["Error"]

/-- The raw ignore patterns of the `C7` witness. -/
def c7Ignore : List String := ["harmless"]

/-- A recognised general-format header. -/
def c2good : List Nat := [66, 84, 68, 88, 0, 0, 0, 0, 71, 78, 82, 76]

/-- A recognised texture-format header. -/
def c2dx10 : List Nat := [66, 84, 68, 88, 1, 2, 3, 4, 68, 88, 49, 48]

/-- An unrecognised header. -/
def c2bad : List Nat := [1, 2, 3]

/-- A successful tool run with empty output. -/
def c2Tool : ToolResult := ⟨false, 0, ""⟩

end ClassicLib

namespace ClassicLib

/-! ## Helper lemmas -/

/-- The empty contribution has no lines in any category. -/
@[simp]
theorem Issues.get_empty (c : IssueCat) : Issues.empty.get c = [] := by
  cases c <;> rfl

/-- Adding a line touches exactly the addressed category. -/
@[simp]
theorem Issues.get_add (i : Issues) (c c' : IssueCat) (s : String) :
    (i.add c s).get c' = if c' = c then s :: i.get c' else i.get c' := by
  cases i
  cases c <;> cases c' <;> simp [Issues.add, Issues.get]

/-- `append` concatenates category-wise. -/
@[simp]
theorem Issues.get_append (a b : Issues) (c : IssueCat) :
    (a.append b).get c = a.get c ++ b.get c := by
  cases a; cases b; cases c <;> simp [Issues.append, Issues.get]

/-- Membership in the rendered sorted set is membership in the contributions. -/
theorem mem_sortedSet {s : String} {l : List String} : s ∈ sortedSet l ↔ s ∈ l := by
  simp [sortedSet, Finset.mem_sort, List.mem_toFinset]

/-- The rendered lines of a category carry no duplicates. -/
theorem sortedSet_nodup (l : List String) : (sortedSet l).Nodup :=
  Finset.sort_nodup _ _

/-- The rendered lines of a category are sorted. -/
theorem sortedSet_sorted (l : List String) : List.Sorted (· ≤ ·) (sortedSet l) :=
  Finset.sort_sorted _ _

/-- Rendering depends only on the set of contributed lines. -/
theorem sortedSet_congr {l l' : List String} (h : l.toFinset = l'.toFinset) :
    sortedSet l = sortedSet l' := by
  unfold sortedSet
  rw [h]

/-- A category block depends only on the set of contributed lines. -/
theorem renderCategory_congr (msgs : Option (List String)) {items items' : List String}
    (h : items.toFinset = items'.toFinset) :
    renderCategory msgs items = renderCategory msgs items' := by
  cases msgs with
  | none => rfl
  | some ts =>
    have hiff : items = [] ↔ items' = [] := by
      constructor
      · intro hx
        exact (List.toFinset_eq_empty_iff items').mp (by rw [← h, hx, List.toFinset_nil])
      · intro hx
        exact (List.toFinset_eq_empty_iff items).mp (by rw [h, hx, List.toFinset_nil])
    have he : items.isEmpty = items'.isEmpty := by
      cases items with
      | nil =>
        have h2 := hiff.mp rfl
        rw [h2]
      | cons a t =>
        cases items' with
        | nil => exact absurd (hiff.mpr rfl) (List.cons_ne_nil a t)
        | cons b u => rfl
    simp only [renderCategory, he, sortedSet_congr h]

/-- A full report depends only on the per-category sets of lines. -/
theorem buildReport_congr (header : List String) (order : List IssueCat)
    (msgs : IssueCat → Option (List String)) {reg reg' : IssueCat → List String}
    (h : ∀ c, (reg c).toFinset = (reg' c).toFinset) :
    buildReport header order msgs reg = buildReport header order msgs reg' := by
  unfold buildReport
  have : (fun c => renderCategory (msgs c) (reg c)) = fun c => renderCategory (msgs c) (reg' c) :=
    funext fun c => renderCategory_congr (msgs c) (h c)
  rw [this]

/-- Permuting the per-task results leaves every category's line set unchanged. -/
theorem mergeResults_perm {rs rs' : List (Option Issues)} (h : rs.Perm rs') (c : IssueCat) :
    (mergeResults rs c).toFinset = (mergeResults rs' c).toFinset :=
  List.toFinset_eq_of_perm _ _ ((h.map _).flatten)

/-- Permuting the directory outcomes leaves every category's line set unchanged. -/
theorem looseRegistry_perm {outs outs' : List DirOutcome} (h : outs.Perm outs') (c : IssueCat) :
    (looseRegistry outs c).toFinset = (looseRegistry outs' c).toFinset :=
  List.toFinset_eq_of_perm _ _ ((h.map _).flatten)

/-- `joinStrs` distributes over list concatenation. -/
theorem joinStrs_append (a b : List String) : joinStrs (a ++ b) = joinStrs a ++ joinStrs b := by
  induction a with
  | nil =>
    show joinStrs b = String.append (String.mk []) (joinStrs b)
    cases joinStrs b
    rfl
  | cons x t ih =>
    show x ++ joinStrs (t ++ b) = (x ++ joinStrs t) ++ joinStrs b
    rw [ih, String.append_assoc]

/-- `infixOf` decides list-infix containment. -/
theorem infixOf_iff {n h : List Char} : infixOf n h = true ↔ n.IsInfix h := by
  induction h with
  | nil =>
    simp only [infixOf, List.isPrefixOf_iff_prefix, List.prefix_nil, List.infix_nil]
  | cons c t ih =>
    simp only [infixOf, Bool.or_eq_true, List.isPrefixOf_iff_prefix, ih,
      List.infix_cons_iff]

/-- Python's `in` holds for an embedded middle piece of a concatenation. -/
theorem pyIn_middle (x a y : String) : pyIn a (x ++ a ++ y) = true := by
  rw [pyIn, infixOf_iff]
  show a.data.IsInfix (x ++ a ++ y).data
  simp only [String.data_append]
  exact List.infix_append _ _ _

end ClassicLib

namespace ClassicLib

/-! ## Claim theorems -/

/-- **C6**: for every loose `.dds` file, only its first 20 bytes are
consulted; if bytes 0..4 differ from the expected magic the file contributes
nothing; otherwise, with width decoded as a little-endian uint32 at offset 12
and height at offset 16, a texture-dimensions issue is recorded if and only
if width or height is odd. -/
theorem claim_C6_dds_header_check (rel : String) (data : List Nat) :
    check_single_dds rel data = check_single_dds rel (data.take 20)
    ∧ (data.take 4 ≠ ddsMagic → check_single_dds rel data = none)
    ∧ (20 ≤ data.length → data.take 4 = ddsMagic →
        ((check_single_dds rel data).isSome = true ↔
          leU32 ((data.drop 12).take 4) % 2 ≠ 0 ∨ leU32 ((data.drop 16).take 4) % 2 ≠ 0)) := by
  refine ⟨?_, ?_, ?_⟩
  · by_cases hl : data.length ≤ 20
    · rw [List.take_of_length_le hl]
    · have h20 : 20 ≤ data.length := by omega
      have e1 : (data.take 20).take 4 = data.take 4 := by
        rw [List.take_take]
        norm_num
      have h1 : (data.take 20).length = 20 := by
        rw [List.length_take]
        omega
      have e2 : ((data.take 20).drop 12).take 4 = (data.drop 12).take 4 := by
        rw [List.drop_take, List.take_take]
        norm_num
      have e3 : ((data.take 20).drop 16).take 4 = (data.drop 16).take 4 := by
        rw [List.drop_take, List.take_take]
        norm_num
      simp only [check_single_dds, e1, e2, e3, h1, h20, le_refl, if_true]
  · intro hm
    simp [check_single_dds, hm]
  · intro hl hm
    unfold check_single_dds
    rw [if_pos hm, if_pos hl]
    by_cases hc : leU32 ((data.drop 12).take 4) % 2 ≠ 0 ∨ leU32 ((data.drop 16).take 4) % 2 ≠ 0
    · rw [if_pos hc]
      simp only [Option.isSome_some, true_iff]
      omega
    · rw [if_neg hc]
      simp only [Option.isSome_none, Bool.false_eq_true, false_iff]
      exact hc

/-- **C6 witness**: the 101×200 header yields a texture-dimensions issue and
the 100×200 header yields none. -/
theorem claim_C6_witness :
    (check_single_dds ("t.dds") c6odd).isSome = true
    ∧ check_single_dds ("t.dds") c6even = none := by
  constructor
  · exact ((claim_C6_dds_header_check ("t.dds") c6odd).2.2 (by decide) (by decide)).mpr
      (by decide)
  · decide

/-- **C2**: a BA2 header starting with `BTDX` whose bytes 8..12 are `GNRL`
is classified general-format and inspected with the `-list` subcommand;
`DX10` is classified texture-format and inspected with `-dump`; any other
header produces exactly one archive-format issue line containing the raw
header bytes, and no external tool is invoked for that archive. -/
theorem claim_C2_ba2_header_classification (keys : List String) (fn parent : String)
    (tool : ToolResult) (h : List Nat) :
    (h.take 4 = bBTDX → h.drop 8 = bGNRL →
      ba2Subcommand h = some BsarchCmd.listCmd ∧ bsarchArg BsarchCmd.listCmd = "-list")
    ∧ (h.take 4 = bBTDX → h.drop 8 = bDX10 →
      ba2Subcommand h = some BsarchCmd.dumpCmd ∧ bsarchArg BsarchCmd.dumpCmd = "-dump")
    ∧ (¬(h.take 4 = bBTDX ∧ (h.drop 8 = bGNRL ∨ h.drop 8 = bDX10)) →
      ba2Subcommand h = none
      ∧ process_single_ba2 keys ⟨fn, parent, some h, tool⟩
          = some (Issues.empty.add .ba2_frmt (ba2FrmtLine fn h))
      ∧ pyIn (bytesRepr h) (ba2FrmtLine fn h) = true) := by
  refine ⟨?_, ?_, ?_⟩
  · intro h1 h2
    have hne : ¬h.drop 8 = bDX10 := by
      rw [h2]
      decide
    have hbadf : ba2HeaderBad h = false := by
      simp only [ba2HeaderBad, h1, h2]
      decide
    refine ⟨?_, rfl⟩
    simp [ba2Subcommand, hbadf, hne]
  · intro h1 h2
    have hbadf : ba2HeaderBad h = false := by
      simp only [ba2HeaderBad, h1, h2]
      decide
    refine ⟨?_, rfl⟩
    simp [ba2Subcommand, hbadf, h2]
  · intro hb
    have hbad : ba2HeaderBad h = true := by
      simp only [ba2HeaderBad, Bool.or_eq_true, Bool.and_eq_true, Bool.not_eq_true',
        decide_eq_false_iff_not, decide_eq_true_eq]
      tauto
    refine ⟨?_, ?_, ?_⟩
    · simp [ba2Subcommand, hbad]
    · simp [process_single_ba2, hbad]
    · show pyIn (bytesRepr h) ("  - " ++ fn ++ " : " ++ bytesRepr h ++ "\n") = true
      exact pyIn_middle _ _ _

/-- **C2 witness**: the three classifications at concrete headers. -/
theorem claim_C2_witness :
    ba2Subcommand c2good = some BsarchCmd.listCmd
    ∧ ba2Subcommand c2dx10 = some BsarchCmd.dumpCmd
    ∧ ba2Subcommand c2bad = none
    ∧ process_single_ba2 [] ⟨"x.ba2", "p", some c2bad, c2Tool⟩
        = some (Issues.empty.add .ba2_frmt (ba2FrmtLine ("x.ba2") c2bad)) := by
  refine ⟨?_, ?_, ?_, ?_⟩
  · exact ((claim_C2_ba2_header_classification [] ("x.ba2") ("p") c2Tool c2good).1
      (by decide) (by decide)).1
  · exact ((claim_C2_ba2_header_classification [] ("x.ba2") ("p") c2Tool c2dx10).2.1
      (by decide) (by decide)).1
  · exact ((claim_C2_ba2_header_classification [] ("x.ba2") ("p") c2Tool c2bad).2.2
      (by decide)).1
  · exact ((claim_C2_ba2_header_classification [] ("x.ba2") ("p") c2Tool c2bad).2.2
      (by decide)).2.1

/-- **C7**: a log line is included if and only if, case-insensitively, it
contains at least one catch pattern and none of the ignore patterns; every
included line is the `ERROR > ` marker followed by the original line; and a
file contributes a formatted block exactly when it has at least one included
line. -/
theorem claim_C7_log_error_filter (catchRaw ignoreRaw : List String) (f : LogFile)
    (ls : List String) (hf : f.lines = some ls) :
    detectedErrors (normalize_list catchRaw) (normalize_list ignoreRaw) ls
      = (ls.filter fun line =>
          (catchRaw.any fun e => pyIn (pyLower e) (pyLower line))
            && (ignoreRaw.all fun i => !pyIn (pyLower i) (pyLower line))).map
          (fun l => errMark ++ l)
    ∧ (∀ e ∈ detectedErrors (normalize_list catchRaw) (normalize_list ignoreRaw) ls,
        ∃ l, l ∈ ls ∧ e = errMark ++ l)
    ∧ process_single_log (normalize_list catchRaw) (normalize_list ignoreRaw) f
        = (if (detectedErrors (normalize_list catchRaw) (normalize_list ignoreRaw) ls).isEmpty
           then []
           else format_error_report f.pathStr
             (detectedErrors (normalize_list catchRaw) (normalize_list ignoreRaw) ls)) := by
  have h1 : detectedErrors (normalize_list catchRaw) (normalize_list ignoreRaw) ls
      = (ls.filter fun line =>
          (catchRaw.any fun e => pyIn (pyLower e) (pyLower line))
            && (ignoreRaw.all fun i => !pyIn (pyLower i) (pyLower line))).map
          (fun l => errMark ++ l) := by
    unfold detectedErrors logLineHit normalize_list
    simp [List.any_map, List.all_map, Function.comp_def]
  refine ⟨h1, ?_, ?_⟩
  · intro e he
    rw [h1] at he
    rcases List.mem_map.mp he with ⟨l, hl, rfl⟩
    exact ⟨l, (List.mem_filter.mp hl).1, rfl⟩
  · simp only [process_single_log, hf]

/-- **C7 witness**: at a concrete log file with a mixed-case catch pattern,
the contributed block is the full formatted report of the single matching
line. -/
theorem claim_C7_witness :
    process_single_log (normalize_list c7Catch) (normalize_list c7Ignore) c7File
      = format_error_report (c7File.pathStr)
          (detectedErrors (normalize_list c7Catch) (normalize_list c7Ignore) c7Lines) := by
  have h := (claim_C7_log_error_filter c7Catch c7Ignore c7File c7Lines rfl).2.2
  rw [h, if_neg (by decide)]

/-- **C3 counterexample**: two dump-mode tool outputs that are case variants
of each other are classified differently, because the `Ext: dds` marker test
is an exact-case substring match: the upper-cased variant records a
texture-format issue while the original records none. -/
theorem claim_C3_counterexample :
    pyLower c3stdout1 = pyLower c3stdout2
    ∧ processDump ("f.ba2") c3stdout1 ≠ processDump ("f.ba2") c3stdout2 := by
  constructor
  · decide
  · decide

/-- **C3 amended**: the list-mode classification decisions (sound-format,
animation-data, script-extender-collision, previs-data) are case-insensitive
on the tool's output text — they factor through its lowercasing — while C3's
inclusion of the dump-mode `Ext: dds` check is refuted by the counterexample. -/
theorem claim_C3_amended_list_mode_case_insensitive (keys : List String)
    (fn parent s t : String) (h : pyLower s = pyLower t) :
    processList keys fn parent s = processList keys fn parent t := by
  unfold processList
  rw [h]

/-- **C3 witness**: a concrete case-variant pair classified identically in
list mode. -/
theorem claim_C3_witness :
    processList [] ("a.ba2") ("p") c3list1 = processList [] ("a.ba2") ("p") c3list2 :=
  claim_C3_amended_list_mode_case_insensitive [] ("a.ba2") ("p") c3list1 c3list2 (by decide)

end ClassicLib

namespace ClassicLib

/-! ## First-match-only flag lemmas -/

/-- Once `has_anim_data` is set, list mode adds no further animation line. -/
theorem listLoop_animdata_flag (keys : List String) (fn p : String) :
    ∀ (l : List String) (hp hx : Bool),
      (listLoop keys fn p l hp true hx).get .animdata = [] := by
  intro l
  induction l with
  | nil => intro hp hx; rfl
  | cons e t ih =>
    intro hp hx
    simp only [listLoop]
    split_ifs with h1 h2 h3 h4
    · simp [ih]
    · simp at h2
    · simp [ih]
    · simp [ih]
    · simp [ih]

/-- Once `has_xse_files` is set, list mode adds no further collision line. -/
theorem listLoop_xse_flag (keys : List String) (fn p : String) :
    ∀ (l : List String) (hp ha : Bool),
      (listLoop keys fn p l hp ha true).get .xse_file = [] := by
  intro l
  induction l with
  | nil => intro hp ha; rfl
  | cons e t ih =>
    intro hp ha
    simp only [listLoop]
    split_ifs with h1 h2 h3 h4
    · simp [ih]
    · simp [ih]
    · simp at h3
    · simp [ih]
    · simp [ih]

/-- Once `has_previs_files` is set, list mode adds no further previs line. -/
theorem listLoop_previs_flag (keys : List String) (fn p : String) :
    ∀ (l : List String) (ha hx : Bool),
      (listLoop keys fn p l true ha hx).get .previs = [] := by
  intro l
  induction l with
  | nil => intro ha hx; rfl
  | cons e t ih =>
    intro ha hx
    simp only [listLoop]
    split_ifs with h1 h2 h3 h4
    · simp [ih]
    · simp [ih]
    · simp [ih]
    · simp at h4
    · simp [ih]

/-- List mode records at most one animation-data line per archive. -/
theorem listLoop_animdata_len (keys : List String) (fn p : String) :
    ∀ (l : List String) (hp ha hx : Bool),
      ((listLoop keys fn p l hp ha hx).get .animdata).length ≤ 1 := by
  intro l
  induction l with
  | nil => intro hp ha hx; simp [listLoop]
  | cons e t ih =>
    intro hp ha hx
    simp only [listLoop]
    split_ifs <;> simp [ih, listLoop_animdata_flag]

/-- List mode records at most one collision line per archive. -/
theorem listLoop_xse_len (keys : List String) (fn p : String) :
    ∀ (l : List String) (hp ha hx : Bool),
      ((listLoop keys fn p l hp ha hx).get .xse_file).length ≤ 1 := by
  intro l
  induction l with
  | nil => intro hp ha hx; simp [listLoop]
  | cons e t ih =>
    intro hp ha hx
    simp only [listLoop]
    split_ifs <;> simp [ih, listLoop_xse_flag]

/-- List mode records at most one previs line per archive. -/
theorem listLoop_previs_len (keys : List String) (fn p : String) :
    ∀ (l : List String) (hp ha hx : Bool),
      ((listLoop keys fn p l hp ha hx).get .previs).length ≤ 1 := by
  intro l
  induction l with
  | nil => intro hp ha hx; simp [listLoop]
  | cons e t ih =>
    intro hp ha hx
    simp only [listLoop]
    split_ifs <;> simp [ih, listLoop_previs_flag]

/-- Dump mode only ever contributes texture-format and texture-dimension
lines. -/
theorem dumpLoop_other (fn : String) (c : IssueCat) (hc1 : c ≠ .tex_frmt)
    (hc2 : c ≠ .tex_dims) : ∀ l, contribGet (dumpLoop fn l) c = [] := by
  intro l
  induction l with
  | nil => simp [dumpLoop, contribGet]
  | cons b t ih =>
    simp only [dumpLoop]
    split
    · exact ih
    · split
      · simp [contribGet]
      · split
        · cases h : dumpLoop fn t with
          | none => simp [contribGet]
          | some acc =>
            rw [h] at ih
            simp only [contribGet] at ih ⊢
            simp [ih, hc1]
        · split
          · simp [contribGet]
          · split
            · cases h : dumpLoop fn t with
              | none => simp [contribGet]
              | some acc =>
                rw [h] at ih
                simp only [contribGet] at ih ⊢
                split_ifs <;> simp [ih, hc2]
            · simp [contribGet]

end ClassicLib

namespace ClassicLib

/-- The subdirectory loop touches only the `animdata` and `cleanup`
categories. -/
theorem dirsLoop_other (mp : List String) (b : String) (tm : Bool) (mo : String → Bool)
    (rel : List String) (c : IssueCat) (h1 : c ≠ .animdata) (h2 : c ≠ .cleanup) :
    ∀ (dirs : List String) (ha : Bool), ((dirsLoop mp b tm mo rel dirs ha).1).get c = [] := by
  intro dirs
  induction dirs with
  | nil => intro ha; simp [dirsLoop]
  | cons dn rest ih =>
    intro ha
    simp only [dirsLoop]
    split_ifs <;> simp [ih, h1, h2]

/-- Once `has_anim_data` is set, the subdirectory loop adds no further
animation line. -/
theorem dirsLoop_animdata_flag (mp : List String) (b : String) (tm : Bool)
    (mo : String → Bool) (rel : List String) :
    ∀ (dirs : List String), ((dirsLoop mp b tm mo rel dirs true).1).get .animdata = [] := by
  intro dirs
  induction dirs with
  | nil => rfl
  | cons dn rest ih =>
    simp only [dirsLoop]
    split_ifs with h1 h2 h3 h4
    · simp at h1
    · simp [ih]
    · simp [ih]
    · simp [ih]
    · simp [ih]

/-- The loose scan records at most one animation-data line per directory. -/
theorem dirsLoop_animdata_len (mp : List String) (b : String) (tm : Bool)
    (mo : String → Bool) (rel : List String) :
    ∀ (dirs : List String) (ha : Bool),
      (((dirsLoop mp b tm mo rel dirs ha).1).get .animdata).length ≤ 1 := by
  intro dirs
  induction dirs with
  | nil => intro ha; simp [dirsLoop]
  | cons dn rest ih =>
    intro ha
    simp only [dirsLoop]
    split_ifs <;> simp [ih, dirsLoop_animdata_flag]

/-- The per-file loop never touches `animdata`, `ba2_frmt` or `tex_dims`. -/
theorem filesLoop_other (keys : List String) (mp : List String) (b : String) (tm : Bool)
    (mo : String → Bool) (rel : List String) (c : IssueCat) (h1 : c ≠ .cleanup)
    (h2 : c ≠ .tex_frmt) (h3 : c ≠ .snd_frmt) (h4 : c ≠ .xse_file) (h5 : c ≠ .previs) :
    ∀ (files : List String) (hx hp : Bool),
      ((filesLoop keys mp b tm mo rel files hx hp).1).get c = [] := by
  intro files
  induction files with
  | nil => intro hx hp; simp [filesLoop]
  | cons fn rest ih =>
    intro hx hp
    simp only [filesLoop]
    split_ifs <;> simp [ih, h1, h2, h3, h4, h5]

/-- Once `has_xse_files` is set, the per-file loop adds no further collision
line. -/
theorem filesLoop_xse_flag (keys : List String) (mp : List String) (b : String) (tm : Bool)
    (mo : String → Bool) (rel : List String) :
    ∀ (files : List String) (hp : Bool),
      ((filesLoop keys mp b tm mo rel files true hp).1).get .xse_file = [] := by
  intro files
  induction files with
  | nil => intro hp; rfl
  | cons fn rest ih =>
    intro hp
    simp only [filesLoop]
    split_ifs with h1 h2 h3 h4 h5 h6 h7 h8
    · simp [ih]
    · simp [ih]
    · simp [ih]
    · simp [ih]
    · simp [ih]
    · simp [ih]
    · simp at h7
    · simp [ih]
    · simp [ih]

/-- Once `has_previs_files` is set, the per-file loop adds no further previs
line. -/
theorem filesLoop_previs_flag (keys : List String) (mp : List String) (b : String)
    (tm : Bool) (mo : String → Bool) (rel : List String) :
    ∀ (files : List String) (hx : Bool),
      ((filesLoop keys mp b tm mo rel files hx true).1).get .previs = [] := by
  intro files
  induction files with
  | nil => intro hx; rfl
  | cons fn rest ih =>
    intro hx
    simp only [filesLoop]
    split_ifs with h1 h2 h3 h4 h5 h6 h7 h8
    · simp [ih]
    · simp [ih]
    · simp [ih]
    · simp [ih]
    · simp [ih]
    · simp [ih]
    · simp [ih]
    · simp at h8
    · simp [ih]

/-- The loose scan records at most one collision line per directory. -/
theorem filesLoop_xse_len (keys : List String) (mp : List String) (b : String) (tm : Bool)
    (mo : String → Bool) (rel : List String) :
    ∀ (files : List String) (hx hp : Bool),
      (((filesLoop keys mp b tm mo rel files hx hp).1).get .xse_file).length ≤ 1 := by
  intro files
  induction files with
  | nil => intro hx hp; simp [filesLoop]
  | cons fn rest ih =>
    intro hx hp
    simp only [filesLoop]
    split_ifs <;> simp [ih, filesLoop_xse_flag]

/-- The loose scan records at most one previs line per directory. -/
theorem filesLoop_previs_len (keys : List String) (mp : List String) (b : String)
    (tm : Bool) (mo : String → Bool) (rel : List String) :
    ∀ (files : List String) (hx hp : Bool),
      (((filesLoop keys mp b tm mo rel files hx hp).1).get .previs).length ≤ 1 := by
  intro files
  induction files with
  | nil => intro hx hp; simp [filesLoop]
  | cons fn rest ih =>
    intro hx hp
    simp only [filesLoop]
    split_ifs <;> simp [ih, filesLoop_previs_flag]

end ClassicLib

namespace ClassicLib

/-- Exact characterisation of the per-directory script-extender outcome of
the per-file loop: one line when some file escapes the earlier branches and
satisfies the collision condition, none otherwise. -/
theorem filesLoop_xse_eq (keys : List String) (mp : List String) (b : String) (tm : Bool)
    (mo : String → Bool) (rel : List String) :
    ∀ (files : List String) (hx hp : Bool),
      ((filesLoop keys mp b tm mo rel files hx hp).1).get .xse_file
        = if !hx && files.any (fun fn => !looseEarlier mp rel fn && xseHit keys mp rel fn)
          then [dirLine rel] else [] := by
  intro files
  induction files with
  | nil => intro hx hp; simp [filesLoop]
  | cons fn rest ih =>
    intro hx hp
    by_cases h1 : isDocFile (pyLower fn) = true
    · have hgf : (!looseEarlier mp rel fn && xseHit keys mp rel fn) = false := by
        simp [looseEarlier, h1]
      simp only [List.any_cons, hgf, Bool.false_or]
      rcases hrec : filesLoop keys mp b tm mo rel rest hx hp with ⟨i, m, d⟩
      have hi := ih hx hp
      rw [hrec] at hi
      rw [← hi]
      simp only [filesLoop, if_pos h1, hrec]
      split_ifs <;> simp
    · by_cases h4 : isDdsBranch fn = true
      · have hgf : (!looseEarlier mp rel fn && xseHit keys mp rel fn) = false := by
          simp [looseEarlier, h4]
        simp only [List.any_cons, hgf, Bool.false_or]
        rcases hrec : filesLoop keys mp b tm mo rel rest hx hp with ⟨i, m, d⟩
        have hi := ih hx hp
        rw [hrec] at hi
        rw [← hi]
        simp only [filesLoop, if_neg h1, if_pos h4, hrec]
      · by_cases h5 : isTexFrmtBranch mp rel fn = true
        · have hgf : (!looseEarlier mp rel fn && xseHit keys mp rel fn) = false := by
            simp [looseEarlier, h5]
          simp only [List.any_cons, hgf, Bool.false_or]
          rcases hrec : filesLoop keys mp b tm mo rel rest hx hp with ⟨i, m, d⟩
          have hi := ih hx hp
          rw [hrec] at hi
          rw [← hi]
          simp only [filesLoop, if_neg h1, if_neg h4, if_pos h5, hrec]
          simp
        · by_cases h6 : isSndBranch fn = true
          · have hgf : (!looseEarlier mp rel fn && xseHit keys mp rel fn) = false := by
              simp [looseEarlier, h6]
            simp only [List.any_cons, hgf, Bool.false_or]
            rcases hrec : filesLoop keys mp b tm mo rel rest hx hp with ⟨i, m, d⟩
            have hi := ih hx hp
            rw [hrec] at hi
            rw [← hi]
            simp only [filesLoop, if_neg h1, if_neg h4, if_neg h5, if_pos h6, hrec]
            simp
          · have hle : looseEarlier mp rel fn = false := by
              simp [looseEarlier, h1, h4, h5, h6]
            by_cases h7 : (!hx && xseHit keys mp rel fn) = true
            · have h7' := h7
              simp only [Bool.and_eq_true] at h7'
              obtain ⟨hx0, hxh⟩ := h7'
              have hgt : (!looseEarlier mp rel fn && xseHit keys mp rel fn) = true := by
                simp [hle, hxh]
              simp only [List.any_cons, hgt, Bool.true_or, Bool.and_true, hx0, if_pos]
              rcases hrec : filesLoop keys mp b tm mo rel rest true hp with ⟨i, m, d⟩
              have hi := ih true hp
              rw [hrec] at hi
              simp only [filesLoop, if_neg h1, if_neg h4, if_neg h5, if_neg h6, if_pos h7,
                hrec]
              simp only [Bool.not_true, Bool.false_and, Bool.false_eq_true, if_false] at hi
              simp [hi]
            · have hgf2 : (!hx
                  && ((!looseEarlier mp rel fn && xseHit keys mp rel fn)
                    || rest.any (fun f => !looseEarlier mp rel f && xseHit keys mp rel f)))
                = (!hx
                  && rest.any (fun f => !looseEarlier mp rel f && xseHit keys mp rel f)) := by
                cases hhx : hx with
                | true => simp
                | false =>
                  have hxf : xseHit keys mp rel fn = false := by
                    simpa [hhx] using h7
                  simp [hle, hxf]
              simp only [List.any_cons]
              simp only [hgf2]
              by_cases h8 : (!hp && previsHit fn) = true
              · rcases hrec : filesLoop keys mp b tm mo rel rest hx true with ⟨i, m, d⟩
                have hi := ih hx true
                rw [hrec] at hi
                rw [← hi]
                simp only [filesLoop, if_neg h1, if_neg h4, if_neg h5, if_neg h6, if_neg h7,
                  if_pos h8, hrec]
                simp
              · rcases hrec : filesLoop keys mp b tm mo rel rest hx hp with ⟨i, m, d⟩
                have hi := ih hx hp
                rw [hrec] at hi
                rw [← hi]
                simp only [filesLoop, if_neg h1, if_neg h4, if_neg h5, if_neg h6, if_neg h7,
                  if_neg h8, hrec]

/-- Contribution bound for one archive task, for a category that dump mode
never touches, that is not the bad-format category, and whose list-mode
contribution is bounded. -/
theorem ba2_contrib_len (keys : List String) (f : Ba2File) (c : IssueCat)
    (hc1 : c ≠ .tex_frmt) (hc2 : c ≠ .tex_dims) (hc3 : c ≠ .ba2_frmt)
    (hlist : ∀ stdout : String,
      ((processList keys f.filename f.parentStr stdout).get c).length ≤ 1) :
    contribLen (process_single_ba2 keys f) c ≤ 1 := by
  obtain ⟨fn, ps, hdr, tool⟩ := f
  cases hdr with
  | none => simp [process_single_ba2, contribLen, contribGet]
  | some h =>
    simp only [process_single_ba2]
    split_ifs with hb hdx ht he ht2 he2
    · simp [contribLen, contribGet, hc3]
    · simp [contribLen, contribGet]
    · simp [contribLen, contribGet]
    · simp only [processDump]
      split_ifs with herr
      · simp [contribLen, contribGet]
      · have hd := dumpLoop_other fn c hc1 hc2 ((pySplit nl2Str tool.stdout).drop 4)
        simp [contribLen, hd]
    · simp [contribLen, contribGet]
    · simp [contribLen, contribGet]
    · simpa [contribLen, contribGet] using hlist tool.stdout

end ClassicLib

namespace ClassicLib

/-- **C4 counterexample**: with script file `f4se.pex` configured, a file of
that name inside a directory named `MyScripts` produces a collision line even
though no path segment equals `Scripts` — the code tests the substring
`Scripts\` + filename against the rendered path, which any ancestor directory
name ending in `Scripts` satisfies; so the claim's "contains a `Scripts` path
segment" condition does not characterise the code. -/
theorem claim_C4_counterexample :
    (process_directory c4Keys c4ModPath ("B") true (fun _ => true) (fun _ => none)
        c4Dir).issues.get IssueCat.xse_file = [dirLine c4Dir.rel]
    ∧ ((c4ModPath ++ c4Dir.rel ++ c4Dir.files).contains ("Scripts")) = false := by
  constructor
  · decide
  · decide

/-- **C4 amended**: in the loose-file scan, a directory's report carries a
script-extender-collision line if and only if some file in it escapes the
earlier branches of the classifier (documentation text, `.dds`, `.tga`/`.png`
outside `BodySlide`, `.mp3`/`.m4a`), its name case-insensitively equals a
configured script-extender filename, its path does not contain
`workshop framework` case-insensitively, and the exact-case string `Scripts\`
followed by the file name occurs in its rendered path; at most one such line
is recorded per directory. -/
theorem claim_C4_amended_xse_condition (keys : List String) (modPath : List String)
    (backupStr : String) (testMode : Bool) (moveOk : String → Bool)
    (ddsContent : String → Option (List Nat)) (d : LooseDir) :
    (process_directory keys modPath backupStr testMode moveOk ddsContent d).issues.get
        .xse_file
      = (if d.files.any
            (fun fn => !looseEarlier modPath d.rel fn && xseHit keys modPath d.rel fn)
         then [dirLine d.rel] else [])
    ∧ ((process_directory keys modPath backupStr testMode moveOk ddsContent d).issues.get
        .xse_file).length ≤ 1 := by
  have hd := dirsLoop_other modPath backupStr testMode moveOk d.rel .xse_file
    (by decide) (by decide) d.dirs false
  have hf := filesLoop_xse_eq keys modPath backupStr testMode moveOk d.rel d.files false false
  have hmain : (process_directory keys modPath backupStr testMode moveOk ddsContent d).issues.get
      .xse_file
      = (if d.files.any
            (fun fn => !looseEarlier modPath d.rel fn && xseHit keys modPath d.rel fn)
         then [dirLine d.rel] else []) := by
    unfold process_directory
    have hlit : ∀ td : List String,
        (Issues.mk [] [] [] td [] [] [] []).get IssueCat.xse_file = [] := fun _ => rfl
    simp only [Issues.get_append, hd, hf, hlit, List.nil_append, List.append_nil]
    simp
  refine ⟨hmain, ?_⟩
  rw [hmain]
  split_ifs <;> simp

/-- **C5**: for every directory of the loose scan and every archive of the
archived scan, each single-detection category (animation-data,
script-extender-collision, previs-data) receives at most one line from that
directory or archive, even when several entries match its pattern. -/
theorem claim_C5_single_detection (keys : List String) (modPath : List String)
    (backupStr : String) (testMode : Bool) (moveOk : String → Bool)
    (ddsContent : String → Option (List Nat)) (d : LooseDir) (f : Ba2File) :
    (((process_directory keys modPath backupStr testMode moveOk ddsContent d).issues.get
        .animdata).length ≤ 1
      ∧ ((process_directory keys modPath backupStr testMode moveOk ddsContent d).issues.get
        .xse_file).length ≤ 1
      ∧ ((process_directory keys modPath backupStr testMode moveOk ddsContent d).issues.get
        .previs).length ≤ 1)
    ∧ (contribLen (process_single_ba2 keys f) .animdata ≤ 1
      ∧ contribLen (process_single_ba2 keys f) .xse_file ≤ 1
      ∧ contribLen (process_single_ba2 keys f) .previs ≤ 1) := by
  refine ⟨⟨?_, ?_, ?_⟩, ?_, ?_, ?_⟩
  · have h1 := dirsLoop_animdata_len modPath backupStr testMode moveOk d.rel d.dirs false
    have h2 := filesLoop_other keys modPath backupStr testMode moveOk d.rel .animdata
      (by decide) (by decide) (by decide) (by decide) (by decide) d.files false false
    unfold process_directory
    have hlit : ∀ td : List String,
        (Issues.mk [] [] [] td [] [] [] []).get IssueCat.animdata = [] := fun _ => rfl
    simp only [Issues.get_append, h2, hlit, List.append_nil]
    simpa using h1
  · have h1 := dirsLoop_other modPath backupStr testMode moveOk d.rel .xse_file
      (by decide) (by decide) d.dirs false
    have h2 := filesLoop_xse_len keys modPath backupStr testMode moveOk d.rel d.files
      false false
    unfold process_directory
    have hlit : ∀ td : List String,
        (Issues.mk [] [] [] td [] [] [] []).get IssueCat.xse_file = [] := fun _ => rfl
    simp only [Issues.get_append, h1, hlit, List.nil_append, List.append_nil]
    simpa using h2
  · have h1 := dirsLoop_other modPath backupStr testMode moveOk d.rel .previs
      (by decide) (by decide) d.dirs false
    have h2 := filesLoop_previs_len keys modPath backupStr testMode moveOk d.rel d.files
      false false
    unfold process_directory
    have hlit : ∀ td : List String,
        (Issues.mk [] [] [] td [] [] [] []).get IssueCat.previs = [] := fun _ => rfl
    simp only [Issues.get_append, h1, hlit, List.nil_append, List.append_nil]
    simpa using h2
  · exact ba2_contrib_len keys f .animdata (by decide) (by decide) (by decide)
      (fun stdout => by
        simpa [processList] using
          listLoop_animdata_len keys f.filename f.parentStr
            ((pySplit nlStr (pyLower stdout)).drop 15) false false false)
  · exact ba2_contrib_len keys f .xse_file (by decide) (by decide) (by decide)
      (fun stdout => by
        simpa [processList] using
          listLoop_xse_len keys f.filename f.parentStr
            ((pySplit nlStr (pyLower stdout)).drop 15) false false false)
  · exact ba2_contrib_len keys f .previs (by decide) (by decide) (by decide)
      (fun stdout => by
        simpa [processList] using
          listLoop_previs_len keys f.filename f.parentStr
            ((pySplit nlStr (pyLower stdout)).drop 15) false false false)

end ClassicLib

namespace ClassicLib

/-- In test mode the subdirectory loop performs no moves. -/
theorem dirsLoop_test_moves (mp : List String) (bk : String) (mo : String → Bool)
    (rel : List String) :
    ∀ (dirs : List String) (ha : Bool), (dirsLoop mp bk true mo rel dirs ha).2 = [] := by
  intro dirs
  induction dirs with
  | nil => intro ha; rfl
  | cons dn rest ih =>
    intro ha
    simp only [dirsLoop]
    split_ifs <;> simp [ih]

/-- The issue contributions of the subdirectory loop in test mode equal those
with moves enabled and every move succeeding. -/
theorem dirsLoop_test_issues (mp : List String) (bk : String) (mo : String → Bool)
    (rel : List String) :
    ∀ (dirs : List String) (ha : Bool),
      (dirsLoop mp bk true mo rel dirs ha).1
        = (dirsLoop mp bk false (fun _ => true) rel dirs ha).1 := by
  intro dirs
  induction dirs with
  | nil => intro ha; rfl
  | cons dn rest ih =>
    intro ha
    simp only [dirsLoop]
    split_ifs <;> simp [ih]

/-- In test mode the per-file loop performs no moves. -/
theorem filesLoop_test_moves (keys : List String) (mp : List String) (bk : String)
    (mo : String → Bool) (rel : List String) :
    ∀ (files : List String) (hx hp : Bool),
      (filesLoop keys mp bk true mo rel files hx hp).2.1 = [] := by
  intro files
  induction files with
  | nil => intro hx hp; rfl
  | cons fn rest ih =>
    intro hx hp
    simp only [filesLoop]
    split_ifs <;> simp [ih]

/-- The issue contributions of the per-file loop in test mode equal those
with moves enabled and every move succeeding. -/
theorem filesLoop_test_issues (keys : List String) (mp : List String) (bk : String)
    (mo : String → Bool) (rel : List String) :
    ∀ (files : List String) (hx hp : Bool),
      (filesLoop keys mp bk true mo rel files hx hp).1
        = (filesLoop keys mp bk false (fun _ => true) rel files hx hp).1 := by
  intro files
  induction files with
  | nil => intro hx hp; rfl
  | cons fn rest ih =>
    intro hx hp
    simp only [filesLoop]
    split_ifs <;> simp [ih]

/-- The queued `.dds` pairs of the per-file loop in test mode equal those
with moves enabled and every move succeeding. -/
theorem filesLoop_test_dds (keys : List String) (mp : List String) (bk : String)
    (mo : String → Bool) (rel : List String) :
    ∀ (files : List String) (hx hp : Bool),
      (filesLoop keys mp bk true mo rel files hx hp).2.2
        = (filesLoop keys mp bk false (fun _ => true) rel files hx hp).2.2 := by
  intro files
  induction files with
  | nil => intro hx hp; rfl
  | cons fn rest ih =>
    intro hx hp
    simp only [filesLoop]
    split_ifs <;> simp [ih]

/-- One directory task in test mode: same issue contributions as with moves
enabled and succeeding, and no move performed. -/
theorem process_directory_test (keys : List String) (mp : List String) (bk : String)
    (mo : String → Bool) (ddsContent : String → Option (List Nat)) (d : LooseDir) :
    (process_directory keys mp bk true mo ddsContent d).issues
      = (process_directory keys mp bk false (fun _ => true) ddsContent d).issues
    ∧ (process_directory keys mp bk true mo ddsContent d).moves = [] := by
  unfold process_directory
  constructor
  · simp only [dirsLoop_test_issues, filesLoop_test_issues, filesLoop_test_dds]
  · simp only [dirsLoop_test_moves, filesLoop_test_moves, List.append_nil]

end ClassicLib

namespace ClassicLib

/-- **C8**: with dry-run (test) mode enabled the loose-file scan performs no
filesystem moves, and its report text is identical to the report the same
scan produces with moves enabled and all moves succeeding. -/
theorem claim_C8_dry_run_frame (s : ScanSettings) (backupStr : String)
    (moveOk : String → Bool) (ddsContent : String → Option (List Nat))
    (walk : Except Unit (List LooseDir)) :
    (scan_mods_unpacked s backupStr true moveOk ddsContent walk).2 = []
    ∧ (scan_mods_unpacked s backupStr true moveOk ddsContent walk).1
      = (scan_mods_unpacked s backupStr false (fun _ => true) ddsContent walk).1 := by
  rcases s with ⟨xse, keys, mpOpt, m1, m2, m3⟩
  cases mpOpt with
  | none => exact ⟨rfl, rfl⟩
  | some mp =>
    cases walk with
    | error e => exact ⟨rfl, rfl⟩
    | ok dirsData =>
      constructor
      · simp only [scan_mods_unpacked]
        rw [List.flatten_eq_nil_iff]
        intro ms hms
        rcases List.mem_map.mp hms with ⟨o, ho, rfl⟩
        rcases List.mem_map.mp ho with ⟨d, hd, rfl⟩
        exact (process_directory_test keys mp backupStr moveOk ddsContent d).2
      · simp only [scan_mods_unpacked]
        have hreg : looseRegistry
            (dirsData.map (process_directory keys mp backupStr true moveOk ddsContent))
            = looseRegistry
              (dirsData.map (process_directory keys mp backupStr false (fun _ => true)
                ddsContent)) := by
          funext c
          unfold looseRegistry
          rw [List.map_map, List.map_map]
          congr 1
          apply List.map_congr_left
          intro d hd
          simp only [Function.comp_apply,
            (process_directory_test keys mp backupStr moveOk ddsContent d).1]
        rw [hreg]

end ClassicLib

namespace ClassicLib

/-- **C1 counterexample**: the log-error scan neither deduplicates nor sorts:
a log file whose matching line occurs twice contributes that line twice to
the report, so a `(category, line)` pair can appear more than once. -/
theorem claim_C1_counterexample :
    ¬ (detectedErrors (normalize_list c1Catch) []
        ["boom" ++ nlStr, "boom" ++ nlStr]).Nodup
    ∧ pyIn ((errMark ++ ("boom" ++ nlStr)) ++ (errMark ++ ("boom" ++ nlStr)))
        (check_log_errors c1Catch [] [] [c1LogFile]) = true := by
  constructor
  · decide
  · decide

/-- **C1 amended**: the two mod scans are deterministic — their reports
depend only on the set of per-task contributions, not on the order in which
concurrent tasks contribute, and each category renders the lexicographically
sorted, duplicate-free elements of its contribution set; the log-error scan
is deterministic because per-file fragments are collected in task order (the
report is the concatenation of independent per-file blocks), but its lines
keep file order and multiplicity. -/
theorem claim_C1_amended_determinism :
    (∀ (xse : String) (rs rs' : List (Option Issues)), rs.Perm rs' →
      buildReport archivedHeader archivedOrder (get_issue_messages xse .archived)
            (mergeResults rs)
        = buildReport archivedHeader archivedOrder (get_issue_messages xse .archived)
            (mergeResults rs'))
    ∧ (∀ (xse : String) (outs outs' : List DirOutcome), outs.Perm outs' →
      buildReport unpackedHeader unpackedOrder (get_issue_messages xse .unpacked)
            (looseRegistry outs)
        = buildReport unpackedHeader unpackedOrder (get_issue_messages xse .unpacked)
            (looseRegistry outs'))
    ∧ (∀ l : List String, (sortedSet l).Nodup ∧ List.Sorted (· ≤ ·) (sortedSet l)
        ∧ ∀ x, x ∈ sortedSet l ↔ x ∈ l)
    ∧ (∀ (catchRaw ignoreRaw ignFiles : List String) (fs1 fs2 : List LogFile),
        check_log_errors catchRaw ignoreRaw ignFiles (fs1 ++ fs2)
          = check_log_errors catchRaw ignoreRaw ignFiles fs1
            ++ check_log_errors catchRaw ignoreRaw ignFiles fs2) := by
  refine ⟨?_, ?_, ?_, ?_⟩
  · intro xse rs rs' h
    exact buildReport_congr _ _ _ (mergeResults_perm h)
  · intro xse outs outs' h
    exact buildReport_congr _ _ _ (looseRegistry_perm h)
  · intro l
    exact ⟨sortedSet_nodup l, sortedSet_sorted l, fun x => mem_sortedSet⟩
  · intro catchRaw ignoreRaw ignFiles fs1 fs2
    unfold check_log_errors validLogFiles
    simp only [List.filter_append, List.map_append, List.flatten_append, joinStrs_append]

/-- **C1 witness**: transposing a two-task result list leaves both reports
unchanged. -/
theorem claim_C1_witness :
    buildReport archivedHeader archivedOrder (get_issue_messages ("X") .archived)
        (mergeResults c1rs1)
      = buildReport archivedHeader archivedOrder (get_issue_messages ("X") .archived)
        (mergeResults c1rs2)
    ∧ buildReport unpackedHeader unpackedOrder (get_issue_messages ("X") .unpacked)
        (looseRegistry c1outs1)
      = buildReport unpackedHeader unpackedOrder (get_issue_messages ("X") .unpacked)
        (looseRegistry c1outs2) := by
  constructor
  · exact claim_C1_amended_determinism.1 ("X") c1rs1 c1rs2 (List.Perm.swap _ _ _)
  · exact claim_C1_amended_determinism.2.1 ("X") c1outs1 c1outs2 (List.Perm.swap _ _ _)

/-- **C9 counterexample**: when the archive scan's collection walk fails, the
returned result string is `Error: Could not scan for BA2 files`, which does
not contain the claimed "could not access" wording. -/
theorem claim_C9_counterexample :
    scan_mods_archived c9Settings true true (Except.error ()) = errCouldNotScanBa2
    ∧ pyIn ("could not access") (pyLower errCouldNotScanBa2) = false := by
  constructor
  · rfl
  · decide

/-- **C9 amended**: a traversal failure is global — each scan returns its
single fixed explanatory error string and no partial report — while a failure
of any individual task after traversal leaves every other task's contributed
lines in the rendered report. -/
theorem claim_C9_amended_traversal_failure :
    (∀ (s : ScanSettings) (backupStr : String) (testMode : Bool) (moveOk : String → Bool)
        (ddsContent : String → Option (List Nat)) (mp : List String),
      s.modPath = some mp →
        scan_mods_unpacked s backupStr testMode moveOk ddsContent (Except.error ())
          = (errCouldNotAccess, []))
    ∧ (∀ (s : ScanSettings) (mp : List String), s.modPath = some mp →
        scan_mods_archived s true true (Except.error ()) = errCouldNotScanBa2)
    ∧ (∀ (rs : List (Option Issues)) (i j : Nat) (hj : j < rs.length), j ≠ i →
        ∀ (c : IssueCat) (ln : String), ln ∈ contribGet (rs.get ⟨j, hj⟩) c →
          ln ∈ sortedSet (mergeResults (rs.set i none) c)) := by
  refine ⟨?_, ?_, ?_⟩
  · intro s backupStr testMode moveOk ddsContent mp h
    rcases s with ⟨xse, keys, mpOpt, m1, m2, m3⟩
    cases mpOpt with
    | none => cases h
    | some mp2 => rfl
  · intro s mp h
    rcases s with ⟨xse, keys, mpOpt, m1, m2, m3⟩
    cases mpOpt with
    | none => cases h
    | some mp2 => rfl
  · intro rs i j hj hne c ln hmem
    rw [mem_sortedSet]
    unfold mergeResults
    rw [List.mem_flatten]
    have hj' : j < (rs.set i none).length := by
      rw [List.length_set]
      exact hj
    refine ⟨contribGet ((rs.set i none).get ⟨j, hj'⟩) c, ?_, ?_⟩
    · exact List.mem_map_of_mem _ (List.get_mem _ _ hj')
    · have hset : (rs.set i none).get ⟨j, hj'⟩ = rs.get ⟨j, hj⟩ := by
        simp [List.get_eq_getElem, List.getElem_set_ne (Ne.symm hne)]
      rw [hset]
      exact hmem

/-- **C9 witness**: the two traversal-failure results at concrete settings. -/
theorem claim_C9_witness :
    scan_mods_unpacked c9Settings ("B") true (fun _ => true) (fun _ => none)
        (Except.error ())
      = (errCouldNotAccess, [])
    ∧ scan_mods_archived c9Settings true true (Except.error ()) = errCouldNotScanBa2 := by
  constructor
  · exact claim_C9_amended_traversal_failure.1 c9Settings ("B") true (fun _ => true)
      (fun _ => none) ["m"] rfl
  · exact claim_C9_amended_traversal_failure.2.1 c9Settings ["m"] rfl

end ClassicLib

namespace ClassicLib

/-- The async dump-block loop computes the same function as the class-based
one. -/
theorem async_dumpLoop_eq (fn : String) :
    ∀ l, AsyncScanGame.dumpLoop fn l = dumpLoop fn l := by
  intro l
  induction l with
  | nil => rfl
  | cons b t ih =>
    simp only [AsyncScanGame.dumpLoop, dumpLoop, ih]

/-- The async list-entry loop computes the same function as the class-based
one. -/
theorem async_listLoop_eq (keys : List String) (fn p : String) :
    ∀ (l : List String) (hp ha hx : Bool),
      AsyncScanGame.listLoop keys fn p l hp ha hx = listLoop keys fn p l hp ha hx := by
  intro l
  induction l with
  | nil => intro hp ha hx; rfl
  | cons e t ih =>
    intro hp ha hx
    simp only [AsyncScanGame.listLoop, listLoop, ih]

/-- The async dump-mode stdout processing equals the class-based one. -/
theorem async_processDump_eq (fn stdout : String) :
    AsyncScanGame.processDump fn stdout = processDump fn stdout := by
  unfold AsyncScanGame.processDump processDump
  simp only [async_dumpLoop_eq]

/-- The async list-mode stdout processing equals the class-based one. -/
theorem async_processList_eq (keys : List String) (fn p stdout : String) :
    AsyncScanGame.processList keys fn p stdout = processList keys fn p stdout := by
  unfold AsyncScanGame.processList processList
  simp only [async_listLoop_eq]

/-- The async per-archive task equals the class-based one. -/
theorem async_process_single_ba2_eq (keys : List String) (f : Ba2File) :
    AsyncScanGame.process_single_ba2 keys f = process_single_ba2 keys f := by
  obtain ⟨fn, ps, hdr, tool⟩ := f
  cases hdr with
  | none => rfl
  | some h =>
    simp only [AsyncScanGame.process_single_ba2, process_single_ba2,
      async_processDump_eq, async_processList_eq]

/-- **C10**: for every combination of settings, traversal outcome and
external-tool behaviour, the class-based archived scan and the free-function
variant return the same report string. -/
theorem claim_C10_archived_variants_equivalent (s : ScanSettings)
    (modPathExists bsarchExists : Bool) (walk : Except Unit (List Ba2File)) :
    scan_mods_archived s modPathExists bsarchExists walk
      = AsyncScanGame.scan_mods_archived_async s modPathExists bsarchExists walk := by
  rcases s with ⟨xse, keys, mpOpt, m1, m2, m3⟩
  cases mpOpt with
  | none => rfl
  | some mp =>
    cases walk with
    | error e => rfl
    | ok files =>
      simp only [scan_mods_archived, AsyncScanGame.scan_mods_archived_async]
      have hc : AsyncScanGame.collectBa2 files = collectBa2 files := rfl
      have hm : AsyncScanGame.CLASSIC_get_issue_messages xse ScanMode.archived
          = get_issue_messages xse ScanMode.archived := rfl
      rw [hc, hm]
      have hmap : (collectBa2 files).map (AsyncScanGame.process_single_ba2 keys)
          = (collectBa2 files).map (process_single_ba2 keys) :=
        List.map_congr_left fun f _ => async_process_single_ba2_eq keys f
      rw [hmap]

end ClassicLib
